import Mathlib

/-!
Verification development for the Warehouse-Schema-Generator repository.

The Python sources are shallowly embedded: Python dicts keyed by table name
become association lists (Python 3.7+ dicts preserve insertion order), Python
floats become rationals, Python string operations become the executable string
helpers below, and loops accumulating counters become countP/map/sum folds
over the same collections in the same order.
-/

namespace WSG

/-! ## Python string primitives -/

/-- Character-list equality of a leading segment: does the second list start
with the first one? (Model of Python's startswith on exploded strings.) -/
def takeMatch : List Char → List Char → Bool
  | [], _ => true
  | _ :: _, [] => false
  | a :: as, b :: bs => a == b && takeMatch as bs

/-- Does the second list contain the first as a contiguous segment?
(Model of Python's `needle in hay` on exploded strings; the empty needle
matches, as in Python.) -/
def hasSubList (needle : List Char) : List Char → Bool
  | [] => needle.isEmpty
  | c :: rest => takeMatch needle (c :: rest) || hasSubList needle rest

/-- Python `needle in hay` for strings. -/
def pyIn (needle hay : String) : Bool :=
  hasSubList needle.toList hay.toList

/-- Python `s.startswith(p)`. -/
def strStartsWith (s p : String) : Bool :=
  takeMatch p.toList s.toList

/-- Python `s.endswith(p)`. -/
def strEndsWith (s p : String) : Bool :=
  takeMatch p.toList.reverse s.toList.reverse

/-- Python `s.lower()` (ASCII case mapping, which is all the sources use). -/
def pyLower (s : String) : String :=
  String.mk (s.toList.map Char.toLower)

/-- Python `s.upper()` (ASCII case mapping). -/
def pyUpper (s : String) : String :=
  String.mk (s.toList.map Char.toUpper)

/-- Python `any(needle in hay for needle in needles)`. -/
def anySubIn (needles : List String) (hay : String) : Bool :=
  needles.any (fun n => pyIn n hay)

/-- Python `s.endswith((p1, p2, ...))`. -/
def anyEndsWith (s : String) (ps : List String) : Bool :=
  ps.any (fun p => strEndsWith s p)

/-! ## Python `round(x, 2)` on rationals

CPython rounds to the nearest representable value with ties to even; on the
rational model this is round-half-even at two decimal places. -/

/-- Round-half-even to an integer. -/
def rndHalfEven (q : ℚ) : ℤ :=
  let f : ℤ := ⌊q⌋
  let r : ℚ := q - f
  if r < 1/2 then f
  else if 1/2 < r then f + 1
  else if f % 2 = 0 then f else f + 1

/-- Python `round(x, 2)` on the rational model. -/
def round2 (q : ℚ) : ℚ :=
  (rndHalfEven (q * 100) : ℚ) / 100

theorem floor_le_rndHalfEven (q : ℚ) : ⌊q⌋ ≤ rndHalfEven q := by
  unfold rndHalfEven
  dsimp only
  split
  · exact le_refl _
  · split
    · exact Int.le_add_one (le_refl _)
    · split
      · exact le_refl _
      · exact Int.le_add_one (le_refl _)

theorem rndHalfEven_le_floor_add_one (q : ℚ) : rndHalfEven q ≤ ⌊q⌋ + 1 := by
  unfold rndHalfEven
  dsimp only
  split
  · exact Int.le_add_one (le_refl _)
  · split
    · exact le_refl _
    · split
      · exact Int.le_add_one (le_refl _)
      · exact le_refl _

theorem int_le_rndHalfEven (z : ℤ) (q : ℚ) (h : (z : ℚ) ≤ q) : z ≤ rndHalfEven q :=
  le_trans (Int.le_floor.mpr h) (floor_le_rndHalfEven q)

theorem rndHalfEven_le_int (z : ℤ) (q : ℚ) (h : q ≤ (z : ℚ)) : rndHalfEven q ≤ z := by
  by_cases hq : q = (⌊q⌋ : ℚ)
  · have heq : rndHalfEven q = ⌊q⌋ := by
      unfold rndHalfEven
      dsimp only
      rw [← hq]
      simp
    rw [heq]
    exact Int.le_floor.mpr (le_of_eq hq.symm) |>.trans (Int.floor_le_floor h) |>.trans
      (le_of_eq (Int.floor_intCast z))
  · have hlt : (⌊q⌋ : ℚ) < q := lt_of_le_of_ne (Int.floor_le q) (fun h2 => hq h2.symm)
    have hfz : ⌊q⌋ < z := by
      have h1 : (⌊q⌋ : ℚ) < (z : ℚ) := lt_of_lt_of_le hlt h
      exact_mod_cast h1
    exact le_trans (rndHalfEven_le_floor_add_one q) hfz

theorem round2_ge (z : ℤ) (q : ℚ) (h : (z : ℚ) / 100 ≤ q) : (z : ℚ) / 100 ≤ round2 q := by
  unfold round2
  have h1 : (z : ℚ) ≤ q * 100 := by linarith [(div_le_iff₀ (by norm_num : (0:ℚ) < 100)).mp h]
  have h2 := int_le_rndHalfEven z (q * 100) h1
  have h3 : (z : ℚ) ≤ (rndHalfEven (q * 100) : ℚ) := by exact_mod_cast h2
  linarith

theorem round2_le (z : ℤ) (q : ℚ) (h : q ≤ (z : ℚ) / 100) : round2 q ≤ (z : ℚ) / 100 := by
  unfold round2
  have h1 : q * 100 ≤ (z : ℚ) := by linarith [(le_div_iff₀ (by norm_num : (0:ℚ) < 100)).mp h]
  have h2 := rndHalfEven_le_int z (q * 100) h1
  have h3 : ((rndHalfEven (q * 100)) : ℚ) ≤ (z : ℚ) := by exact_mod_cast h2
  linarith

/-! ## Warehouse Synthesizer

Embeds `identify_tables` from `schema_generator/utils/schema_generation.py`
(lines 87-103) and the classification loop of `generate_warehouse_schema`
from `schema_generator/utils.py` (lines 132-167).  A parsed table is a dict
with `columns`, `primary_keys` and `foreign_keys`; a foreign key is a dict
`column` / `references.table` / `references.column`. -/

structure FKRef where
  column : String
  refTable : String
  refColumn : String
deriving DecidableEq, Repr

structure GCol where
  name : String
  type : String
deriving DecidableEq, Repr

structure GTable where
  columns : List GCol
  primary_keys : List String
  foreign_keys : List FKRef
deriving DecidableEq, Repr

/-- A parsed schema: ordered mapping table name -> table info. -/
abbrev GSchema := List (String × GTable)

/-- `len(set(fk['references']['table'] for fk in table_info['foreign_keys']))`. -/
def distinctFKTargets (t : GTable) : ℕ :=
  ((t.foreign_keys.map FKRef.refTable).dedup).length

/-- `identify_tables` of `schema_generation.py`: one pass over the tables,
fact iff the set of referenced target tables has size >= 2, dimension
otherwise.  (The `referenced_tables` set computed by the source is dead code
there: the classification never reads it.)  Returns (fact, dimension). -/
def identify_tables (tables : GSchema) : GSchema × GSchema :=
  tables.partition (fun p => decide (2 ≤ distinctFKTargets p.2))

/-- The per-table branch structure of `generate_warehouse_schema` in
`schema_generator/utils.py` lines 141-162, kept branch for branch:
`referenced` is the set of tables referenced by anyone. -/
def utilsIsFact (referenced : List String) (name : String) (t : GTable) : Bool :=
  let fk_tables := (t.foreign_keys.map FKRef.refTable).dedup
  if !fk_tables.isEmpty then
    if 2 ≤ fk_tables.length then true
    else
      if referenced.contains name then false
      else false
  else
    if referenced.contains name then false
    else false

/-- The classification loop of `generate_warehouse_schema` in
`schema_generator/utils.py`: builds the referenced-tables set, then
partitions.  Returns (fact_tables, dimension_tables). -/
def utilsClassifyTables (tables : GSchema) : GSchema × GSchema :=
  let referenced := tables.flatMap (fun p => p.2.foreign_keys.map FKRef.refTable)
  tables.partition (fun p => utilsIsFact referenced p.1 p.2)

theorem utilsIsFact_eq (r : List String) (n : String) (t : GTable) :
    utilsIsFact r n t = decide (2 ≤ distinctFKTargets t) := by
  unfold utilsIsFact distinctFKTargets
  by_cases h : 2 ≤ ((t.foreign_keys.map FKRef.refTable).dedup).length
  · have hne : ¬ ((t.foreign_keys.map FKRef.refTable).dedup).isEmpty := by
      cases hl : (t.foreign_keys.map FKRef.refTable).dedup with
      | nil => rw [hl] at h; simp at h
      | cons a as => simp [List.isEmpty]
    simp [hne, h]
  · by_cases he : ((t.foreign_keys.map FKRef.refTable).dedup).isEmpty
    · simp [he, h]
    · simp [he, h]

/-- C1: for every input schema, a table lands in `fact_tables` iff the number
of distinct target tables of its own outgoing foreign keys is at least 2, and
in `dimension_tables` otherwise — in both the `schema_generation.identify_tables`
synthesizer and the `utils.generate_warehouse_schema` classification loop. -/
theorem fan_out_rule (tables : GSchema) (p : String × GTable) :
    ((p ∈ (identify_tables tables).1 ↔ p ∈ tables ∧ 2 ≤ distinctFKTargets p.2) ∧
     (p ∈ (identify_tables tables).2 ↔ p ∈ tables ∧ ¬ 2 ≤ distinctFKTargets p.2)) ∧
    ((p ∈ (utilsClassifyTables tables).1 ↔ p ∈ tables ∧ 2 ≤ distinctFKTargets p.2) ∧
     (p ∈ (utilsClassifyTables tables).2 ↔ p ∈ tables ∧ ¬ 2 ≤ distinctFKTargets p.2)) := by
  unfold identify_tables utilsClassifyTables
  simp only [List.partition_eq_filter_filter, List.mem_filter, utilsIsFact_eq]
  simp [decide_eq_true_eq]

/-! ## Domain Gap Analyzer

Embeds `TABLE_VARIATIONS` and `enhance_schema_with_domain` from
`schema_generator/utils/enhancements.py`, the standard-schema catalog from
`schema_generator/utils/standard_schemas.py`, and the back-end variant
`code/back-end/schema_generator/utils/enhancements.py` (whose
`standard_schemas` module is not in the repository snapshot, so the back-end
catalog is an explicit parameter). -/

structure WarehouseSchema where
  fact_tables : GSchema
  dimension_tables : GSchema
deriving DecidableEq, Repr

/-- `TABLE_VARIATIONS` of `schema_generator/utils/enhancements.py`. -/
def TABLE_VARIATIONS : List (String × List String) :=
  [("customer_dimension", ["customer_dimension", "customers", "customer", "cust_dim"]),
   ("product_dimension", ["product_dimension", "products", "product", "prod_dim"]),
   ("date_dimension", ["date_dimension", "dates", "date", "time_dim"]),
   ("store_dimension", ["store_dimension", "stores", "store", "location_dim"]),
   ("sales_fact", ["sales_fact", "sales", "orders", "order_items", "order_facts"])]

/-- `TABLE_VARIATIONS` of the back-end
`code/back-end/schema_generator/utils/enhancements.py`. -/
def TABLE_VARIATIONS_BE : List (String × List String) :=
  [("customer_dimension",
    ["customer_dimension", "customers", "customer", "cust_dim", "client_dim", "user_dim"]),
   ("product_dimension",
    ["product_dimension", "products", "product", "prod_dim", "item_dim", "sku_dim"]),
   ("date_dimension", ["date_dimension", "dates", "date", "time_dim", "calendar_dim"]),
   ("store_dimension", ["store_dimension", "stores", "store", "location_dim", "branch_dim"]),
   ("sales_fact", ["sales_fact", "sales", "orders", "order_items", "order_facts", "transactions"]),
   ("invoice_fact", ["invoice_fact", "invoices", "billing", "bills", "receipts"]),
   ("inventory_fact", ["inventory_fact", "inventory", "stock", "warehouse_stock"]),
   ("employee_dimension", ["employee_dimension", "employees", "staff", "worker_dim", "hr_dim"]),
   ("shipment_fact", ["shipment_fact", "shipments", "delivery_fact", "logistics_fact"]),
   ("supplier_dimension",
    ["supplier_dimension", "suppliers", "vendor_dimension", "manufacturers"]),
   ("payment_fact", ["payment_fact", "payments", "transactions", "financial_facts"]),
   ("loan_fact", ["loan_fact", "loans", "credits", "borrowings"]),
   ("finance_dimension", ["finance_dimension", "bank_accounts", "financial_accounts"]),
   ("social_media_fact",
    ["social_media_fact", "social_activity", "user_interactions", "engagement_fact"]),
   ("real_estate_fact", ["real_estate_fact", "property_transactions", "rental_facts"]),
   ("medical_fact", ["medical_fact", "patient_visits", "health_records", "hospital_visits"]),
   ("ecommerce_fact", ["ecommerce_fact", "online_orders", "digital_sales", "shopping_facts"]),
   ("marketing_dimension", ["marketing_dimension", "ad_campaigns", "promotion_dimension"]),
   ("logistics_fact", ["logistics_fact", "transportation_fact", "supply_chain_facts"])]

/-- Short constructor for a standard-schema column. -/
def sc (n ty : String) : GCol := { name := n, type := ty }

/-- `get_standard_schema_for_domain` of
`schema_generator/utils/standard_schemas.py`; the Python function returns
an empty (falsy) dict for an unknown domain, modelled as `none`. -/
def get_standard_schema_for_domain (domain : String) : Option WarehouseSchema :=
  if domain = "E-commerce" then some
    { fact_tables :=
        [("sales_fact",
          { columns :=
              [sc "sale_id" "INT", sc "date_id" "INT", sc "customer_id" "INT",
               sc "product_id" "INT", sc "quantity" "INT", sc "total_amount" "DECIMAL(10,2)",
               sc "discount_amount" "DECIMAL(10,2)", sc "tax_amount" "DECIMAL(10,2)",
               sc "shipping_cost" "DECIMAL(10,2)", sc "store_id" "INT"],
            primary_keys := ["sale_id"],
            foreign_keys :=
              [{ column := "date_id", refTable := "date_dimension", refColumn := "date_id" },
               { column := "customer_id", refTable := "customer_dimension",
                 refColumn := "customer_id" },
               { column := "product_id", refTable := "product_dimension",
                 refColumn := "product_id" },
               { column := "store_id", refTable := "store_dimension",
                 refColumn := "store_id" }] })],
      dimension_tables :=
        [("customer_dimension",
          { columns :=
              [sc "customer_id" "INT", sc "full_name" "VARCHAR(100)", sc "email" "VARCHAR(100)",
               sc "phone" "VARCHAR(20)", sc "address" "VARCHAR(255)", sc "created_at" "TIMESTAMP",
               sc "updated_at" "TIMESTAMP", sc "loyalty_points" "INT"],
            primary_keys := ["customer_id"], foreign_keys := [] }),
         ("product_dimension",
          { columns :=
              [sc "product_id" "INT", sc "product_name" "VARCHAR(100)", sc "category" "VARCHAR(50)",
               sc "price" "DECIMAL(10,2)", sc "sku" "VARCHAR(50)", sc "inventory_level" "INT"],
            primary_keys := ["product_id"], foreign_keys := [] }),
         ("date_dimension",
          { columns :=
              [sc "date_id" "INT", sc "date" "DATE", sc "year" "INT", sc "month" "INT",
               sc "day" "INT", sc "quarter" "INT", sc "is_holiday" "BOOLEAN"],
            primary_keys := ["date_id"], foreign_keys := [] }),
         ("store_dimension",
          { columns :=
              [sc "store_id" "INT", sc "store_name" "VARCHAR(100)", sc "location" "VARCHAR(255)",
               sc "store_type" "VARCHAR(50)"],
            primary_keys := ["store_id"], foreign_keys := [] })] }
  else if domain = "Healthcare" then some
    { fact_tables :=
        [("appointment_fact",
          { columns :=
              [sc "appointment_id" "INT", sc "date_id" "INT", sc "patient_id" "INT",
               sc "doctor_id" "INT", sc "diagnosis" "VARCHAR(255)", sc "treatment" "VARCHAR(255)",
               sc "cost" "DECIMAL(10,2)", sc "payment_method" "VARCHAR(50)"],
            primary_keys := ["appointment_id"],
            foreign_keys :=
              [{ column := "date_id", refTable := "date_dimension", refColumn := "date_id" },
               { column := "patient_id", refTable := "patient_dimension",
                 refColumn := "patient_id" },
               { column := "doctor_id", refTable := "doctor_dimension",
                 refColumn := "doctor_id" }] })],
      dimension_tables :=
        [("patient_dimension",
          { columns :=
              [sc "patient_id" "INT", sc "full_name" "VARCHAR(100)", sc "dob" "DATE",
               sc "address" "VARCHAR(255)", sc "phone" "VARCHAR(20)", sc "email" "VARCHAR(100)",
               sc "insurance_provider" "VARCHAR(100)"],
            primary_keys := ["patient_id"], foreign_keys := [] }),
         ("doctor_dimension",
          { columns :=
              [sc "doctor_id" "INT", sc "full_name" "VARCHAR(100)",
               sc "specialization" "VARCHAR(50)", sc "phone" "VARCHAR(20)",
               sc "email" "VARCHAR(100)", sc "years_experience" "INT"],
            primary_keys := ["doctor_id"], foreign_keys := [] }),
         ("date_dimension",
          { columns :=
              [sc "date_id" "INT", sc "date" "DATE", sc "year" "INT", sc "month" "INT",
               sc "day" "INT", sc "quarter" "INT", sc "is_weekend" "BOOLEAN"],
            primary_keys := ["date_id"], foreign_keys := [] })] }
  else if domain = "Education" then some
    { fact_tables :=
        [("enrollment_fact",
          { columns :=
              [sc "enrollment_id" "INT", sc "date_id" "INT", sc "student_id" "INT",
               sc "course_id" "INT", sc "grade" "DECIMAL(5,2)",
               sc "attendance_rate" "DECIMAL(5,2)"],
            primary_keys := ["enrollment_id"],
            foreign_keys :=
              [{ column := "date_id", refTable := "date_dimension", refColumn := "date_id" },
               { column := "student_id", refTable := "student_dimension",
                 refColumn := "student_id" },
               { column := "course_id", refTable := "course_dimension",
                 refColumn := "course_id" }] })],
      dimension_tables :=
        [("student_dimension",
          { columns :=
              [sc "student_id" "INT", sc "full_name" "VARCHAR(100)", sc "dob" "DATE",
               sc "address" "VARCHAR(255)", sc "phone" "VARCHAR(20)", sc "email" "VARCHAR(100)",
               sc "major" "VARCHAR(50)"],
            primary_keys := ["student_id"], foreign_keys := [] }),
         ("course_dimension",
          { columns :=
              [sc "course_id" "INT", sc "course_name" "VARCHAR(100)",
               sc "instructor" "VARCHAR(50)", sc "subject" "VARCHAR(50)", sc "credits" "INT"],
            primary_keys := ["course_id"], foreign_keys := [] }),
         ("date_dimension",
          { columns :=
              [sc "date_id" "INT", sc "date" "DATE", sc "year" "INT", sc "month" "INT",
               sc "day" "INT", sc "quarter" "INT"],
            primary_keys := ["date_id"], foreign_keys := [] })] }
  else if domain = "Finance" then some
    { fact_tables :=
        [("transaction_fact",
          { columns :=
              [sc "transaction_id" "INT", sc "date_id" "INT", sc "account_id" "INT",
               sc "amount" "DECIMAL(10,2)", sc "transaction_type" "VARCHAR(20)",
               sc "currency" "VARCHAR(3)"],
            primary_keys := ["transaction_id"],
            foreign_keys :=
              [{ column := "date_id", refTable := "date_dimension", refColumn := "date_id" },
               { column := "account_id", refTable := "account_dimension",
                 refColumn := "account_id" }] })],
      dimension_tables :=
        [("account_dimension",
          { columns :=
              [sc "account_id" "INT", sc "account_name" "VARCHAR(100)",
               sc "account_type" "VARCHAR(50)", sc "balance" "DECIMAL(10,2)",
               sc "branch" "VARCHAR(100)"],
            primary_keys := ["account_id"], foreign_keys := [] }),
         ("date_dimension",
          { columns :=
              [sc "date_id" "INT", sc "date" "DATE", sc "year" "INT", sc "month" "INT",
               sc "day" "INT", sc "quarter" "INT"],
            primary_keys := ["date_id"], foreign_keys := [] })] }
  else if domain = "Supply Chain" then some
    { fact_tables :=
        [("shipment_fact",
          { columns :=
              [sc "shipment_id" "INT", sc "date_id" "INT", sc "supplier_id" "INT",
               sc "product_id" "INT", sc "quantity" "INT", sc "warehouse_id" "INT"],
            primary_keys := ["shipment_id"],
            foreign_keys :=
              [{ column := "date_id", refTable := "date_dimension", refColumn := "date_id" },
               { column := "supplier_id", refTable := "supplier_dimension",
                 refColumn := "supplier_id" },
               { column := "product_id", refTable := "product_dimension",
                 refColumn := "product_id" },
               { column := "warehouse_id", refTable := "warehouse_dimension",
                 refColumn := "warehouse_id" }] })],
      dimension_tables :=
        [("supplier_dimension",
          { columns :=
              [sc "supplier_id" "INT", sc "supplier_name" "VARCHAR(100)",
               sc "address" "VARCHAR(255)", sc "phone" "VARCHAR(20)", sc "email" "VARCHAR(100)"],
            primary_keys := ["supplier_id"], foreign_keys := [] }),
         ("warehouse_dimension",
          { columns :=
              [sc "warehouse_id" "INT", sc "warehouse_name" "VARCHAR(100)",
               sc "location" "VARCHAR(255)"],
            primary_keys := ["warehouse_id"], foreign_keys := [] }),
         ("product_dimension",
          { columns :=
              [sc "product_id" "INT", sc "product_name" "VARCHAR(100)",
               sc "category" "VARCHAR(50)", sc "price" "DECIMAL(10,2)", sc "sku" "VARCHAR(50)"],
            primary_keys := ["product_id"], foreign_keys := [] }),
         ("date_dimension",
          { columns :=
              [sc "date_id" "INT", sc "date" "DATE", sc "year" "INT", sc "month" "INT",
               sc "day" "INT", sc "quarter" "INT"],
            primary_keys := ["date_id"], foreign_keys := [] })] }
  else if domain = "Social Media" then some
    { fact_tables :=
        [("post_fact",
          { columns :=
              [sc "post_id" "INT", sc "date_id" "INT", sc "user_id" "INT", sc "content" "TEXT",
               sc "likes" "INT", sc "comments" "INT"],
            primary_keys := ["post_id"],
            foreign_keys :=
              [{ column := "date_id", refTable := "date_dimension", refColumn := "date_id" },
               { column := "user_id", refTable := "user_dimension", refColumn := "user_id" }] })],
      dimension_tables :=
        [("user_dimension",
          { columns :=
              [sc "user_id" "INT", sc "username" "VARCHAR(50)", sc "full_name" "VARCHAR(100)",
               sc "email" "VARCHAR(100)", sc "phone" "VARCHAR(20)", sc "location" "VARCHAR(100)"],
            primary_keys := ["user_id"], foreign_keys := [] }),
         ("date_dimension",
          { columns :=
              [sc "date_id" "INT", sc "date" "DATE", sc "year" "INT", sc "month" "INT",
               sc "day" "INT", sc "quarter" "INT"],
            primary_keys := ["date_id"], foreign_keys := [] })] }
  else none

/-- The merged key list of Python's `{**fact_tables, **dimension_tables}`:
fact keys in order, then dimension keys not already present. -/
def mergedUserTableNames (w : WarehouseSchema) : List String :=
  let factNames := w.fact_tables.map Prod.fst
  factNames ++ (w.dimension_tables.map Prod.fst).filter (fun n => !(factNames.contains n))

/-- The `user_table_name_mapping` loop of `enhance_schema_with_domain`:
for each standard table, the first user table whose lower-cased name is in
its variation list (the inner `break`). -/
def userTableNameMapping (variations : List (String × List String))
    (userNames : List String) : List (String × String) :=
  variations.filterMap
    (fun p => (userNames.find? (fun u => p.2.contains (pyLower u))).map (fun u => (p.1, u)))

/-- The body shared by both `enhance_schema_with_domain` implementations,
applied to one standard table: `std_columns - user_columns` over lower-cased
names (the set difference is materialised in standard-column order). -/
def missingColsFor (w : WarehouseSchema) (userName : String) (stdInfo : GTable) : List String :=
  let found : Option GTable :=
    (w.fact_tables.lookup userName).orElse (fun _ => w.dimension_tables.lookup userName)
  let userCols : List String :=
    match found with
    | some ut => ut.columns.map (fun c => pyLower c.name)
    | none => []  -- unreachable for mappings built from the warehouse's own keys
  ((stdInfo.columns.map (fun c => pyLower c.name)).dedup).filter (fun n => !(userCols.contains n))

/-- `enhance_schema_with_domain`, generic in the variation table and the
standard-schema catalog.  Returns the (unchanged) warehouse schema, the
missing-table list and the missing-column mapping. -/
def enhanceCore (variations : List (String × List String))
    (catalog : String → Option WarehouseSchema) (w : WarehouseSchema) (domain : String) :
    WarehouseSchema × List String × List (String × List String) :=
  match catalog domain with
  | none => (w, [], [])
  | some std =>
    let mapping := userTableNameMapping variations (mergedUserTableNames w)
    let stdAll := std.fact_tables ++ std.dimension_tables
    let missing_tables :=
      (stdAll.filter (fun p => (mapping.lookup p.1).isNone)).map Prod.fst
    let missing_columns :=
      stdAll.filterMap (fun p =>
        match mapping.lookup p.1 with
        | none => none
        | some u =>
          let mc := missingColsFor w u p.2
          if mc.isEmpty then none else some (p.1, mc))
    (w, missing_tables, missing_columns)

/-- `enhance_schema_with_domain` of `schema_generator/utils/enhancements.py`. -/
def enhance_schema_with_domain (w : WarehouseSchema) (domain : String) :
    WarehouseSchema × List String × List (String × List String) :=
  enhanceCore TABLE_VARIATIONS get_standard_schema_for_domain w domain

/-- `enhance_schema_with_domain` of the back-end
`code/back-end/schema_generator/utils/enhancements.py`; its
`standard_schemas` module is absent from the snapshot, so the catalog is a
parameter. -/
def enhance_schema_with_domainBE (catalog : String → Option WarehouseSchema)
    (w : WarehouseSchema) (domain : String) :
    WarehouseSchema × List String × List (String × List String) :=
  enhanceCore TABLE_VARIATIONS_BE catalog w domain

/-- A warehouse whose only table is named `client` with columns id, name. -/
def clientWarehouse : WarehouseSchema :=
  { fact_tables := [],
    dimension_tables :=
      [("client",
        { columns := [{ name := "id", type := "INT" }, { name := "name", type := "VARCHAR(100)" }],
          primary_keys := ["id"], foreign_keys := [] })] }

/-- The same warehouse with the table renamed to `customer`, which is a
recognised `TABLE_VARIATIONS` synonym of `customer_dimension`. -/
def customerWarehouse : WarehouseSchema :=
  { fact_tables := [],
    dimension_tables :=
      [("customer",
        { columns := [{ name := "id", type := "INT" }, { name := "name", type := "VARCHAR(100)" }],
          primary_keys := ["id"], foreign_keys := [] })] }

/-- C6 counterexample: `client` is NOT in `TABLE_VARIATIONS["customer_dimension"]`
(the accepted spellings are customer_dimension / customers / customer /
cust_dim), so gap analysis for E-commerce on the client-only warehouse leaves
`missing_columns` empty and reports `customer_dimension` as a missing table —
the opposite of the claimed output on both counts. -/
theorem client_not_a_synonym_counterexample :
    (enhance_schema_with_domain clientWarehouse "E-commerce").2.2 = [] ∧
    "customer_dimension" ∈ (enhance_schema_with_domain clientWarehouse "E-commerce").2.1 := by
  constructor
  · rfl
  · decide

/-- C6 (amended): with the table named `customer` — a recognised synonym of
`customer_dimension` — gap analysis for E-commerce maps it to
`customer_dimension`, keeps `customer_dimension` out of `missing_tables`, and
reports as missing exactly the eight standard customer_dimension columns
(which include `email`), since neither `id` nor `name` matches any of them. -/
theorem customer_synonym_gap_analysis :
    (enhance_schema_with_domain customerWarehouse "E-commerce").2.2 =
      [("customer_dimension",
        ["customer_id", "full_name", "email", "phone", "address", "created_at",
         "updated_at", "loyalty_points"])] ∧
    "email" ∈ ((enhance_schema_with_domain customerWarehouse "E-commerce").2.2.lookup
        "customer_dimension").getD [] ∧
    "customer_dimension" ∉ (enhance_schema_with_domain customerWarehouse "E-commerce").2.1 := by
  refine ⟨by rfl, by decide, by decide⟩

/-- C8: gap analysis never changes the warehouse schema it is given — the
returned warehouse component is the input itself, for every domain (and, for
the back-end variant, every catalog); and for an unknown domain (one the
catalog maps to nothing) the result is empty missing-tables and
missing-columns rather than an error. -/
theorem gap_analysis_purity (catalog : String → Option WarehouseSchema)
    (w : WarehouseSchema) (d : String) :
    ((enhance_schema_with_domain w d).1 = w ∧
     (enhance_schema_with_domainBE catalog w d).1 = w) ∧
    (get_standard_schema_for_domain d = none →
      enhance_schema_with_domain w d = (w, [], [])) ∧
    (catalog d = none → enhance_schema_with_domainBE catalog w d = (w, [], [])) := by
  unfold enhance_schema_with_domain enhance_schema_with_domainBE enhanceCore
  refine ⟨⟨?_, ?_⟩, ?_, ?_⟩
  · cases get_standard_schema_for_domain d <;> rfl
  · cases catalog d <;> rfl
  · intro h
    rw [h]
  · intro h
    rw [h]

/-- Witness for C8 at concrete inputs: the domain `Nonexistent-Domain` is
unknown to the catalog, and gap analysis there returns the warehouse
unchanged with empty results (likewise for the back-end variant under an
empty catalog). -/
theorem gap_analysis_purity_witness :
    get_standard_schema_for_domain "Nonexistent-Domain" = none ∧
    enhance_schema_with_domain clientWarehouse "Nonexistent-Domain" =
      (clientWarehouse, [], []) ∧
    enhance_schema_with_domainBE (fun _ => none) clientWarehouse "Nonexistent-Domain" =
      (clientWarehouse, [], []) := by
  have hnone : get_standard_schema_for_domain "Nonexistent-Domain" = none := by decide
  exact ⟨hnone,
    (gap_analysis_purity (fun _ => none) clientWarehouse "Nonexistent-Domain").2.1 hnone,
    (gap_analysis_purity (fun _ => none) clientWarehouse "Nonexistent-Domain").2.2 rfl⟩

/-! ## Evaluation Engine

Embeds `SchemaEvaluationFramework` from
`code/back-end/schema_generator/utils/evaluation.py`.  A schema there is a
dict table name -> table info with a `columns` list whose entries carry
`name`, `type` and a `constraints` list; the `isinstance`/key-presence
guards in the source are vacuous on that documented shape and the embedding
works on the typed shape directly.  Scores are rationals (the source uses
floats over small decimal literals). -/

structure ECol where
  name : String
  type : String
  constraints : List String
deriving DecidableEq, Repr

structure ETable where
  name : String
  columns : List ECol
deriving DecidableEq, Repr

abbrev ESchema := List ETable

/-- All column dicts of the schema, in iteration order. -/
def allColumns (s : ESchema) : List ECol :=
  s.flatMap ETable.columns

/-- The six fixed weights of `SchemaEvaluationFramework.__init__`. -/
def w_structural : ℚ := 0.20
def w_semantic : ℚ := 0.15
def w_best_practices : ℚ := 0.25
def w_quality : ℚ := 0.20
def w_relationships : ℚ := 0.15
def w_domain_alignment : ℚ := 0.05

/-! ### Algorithm 1: Structural Similarity Analysis -/

structure StructFeatures where
  table_count : ℕ
  total_columns : ℕ
  data_types : List String
  relationship_count : ℕ
  column_distribution : ℚ
deriving DecidableEq, Repr

/-- `_extract_structural_features`: `relationship_count` is incremented once
per constraint containing FOREIGN KEY. -/
def extract_structural_features (s : ESchema) : StructFeatures :=
  let cols := allColumns s
  let tc := s.length
  let totalc := cols.length
  { table_count := tc,
    total_columns := totalc,
    data_types := cols.map (fun c => pyUpper c.type),
    relationship_count :=
      (cols.flatMap ECol.constraints).countP (fun con => pyIn "FOREIGN KEY" (pyUpper con)),
    column_distribution := if 0 < tc then (totalc : ℚ) / tc else 0 }

def warehouseTypeVocabulary : List String :=
  ["BIGINT", "INTEGER", "DECIMAL", "VARCHAR", "DATE", "BOOLEAN", "TIMESTAMP", "SERIAL"]

/-- The recurring bonus shape `(x - threshold) * scale if x > threshold else 0.0`
of the source's scorers. -/
def threshold_bonus (x threshold scale : ℚ) : ℚ :=
  if threshold < x then (x - threshold) * scale else 0.0

/-- `table_bonus` of `_structural_similarity_analysis`. -/
def ssa_table_bonus (ratio : ℚ) : ℚ :=
  if 1.0 ≤ ratio ∧ ratio ≤ 4.0 then min 8.0 ((ratio - 1.0) * 4.0)
  else if 0.7 ≤ ratio then 3.0
  else 0.0

/-- `col_dist_bonus` of `_structural_similarity_analysis`. -/
def ssa_col_dist_bonus (cd : ℚ) : ℚ :=
  if 4 ≤ cd ∧ cd ≤ 15 then 6.0 else if 3 ≤ cd ∧ cd ≤ 20 then 4.0 else 2.0

/-- `type_bonus` of `_structural_similarity_analysis`: the share of the
warehouse type vocabulary present among the target's data types, times 6. -/
def ssa_type_bonus (data_types : List String) : ℚ :=
  let target_types := data_types.dedup
  ((warehouseTypeVocabulary.filter (fun t => target_types.contains t)).length : ℚ) /
      (warehouseTypeVocabulary.length : ℚ) * 6.0

/-- `rel_bonus` of `_structural_similarity_analysis`. -/
def ssa_rel_bonus (trel rrel : ℕ) : ℚ :=
  if (rrel : ℚ) ≤ (trel : ℚ) then min 4.0 (2.0 + ((trel : ℚ) - (rrel : ℚ)) * 0.5)
  else if (rrel : ℚ) * 0.7 ≤ (trel : ℚ) then 2.0
  else 0.0

/-- `warehouse_pattern_bonus` of `_structural_similarity_analysis`. -/
def ssa_pattern_bonus (factCount dimCount : ℕ) : ℚ :=
  if 0 < factCount ∧ 0 < dimCount then 5.0
  else if 0 < factCount ∨ 0 < dimCount then 3.0
  else 0.0

/-- `_structural_similarity_analysis`. -/
def structural_similarity_analysis (target reference : ESchema) : ℚ :=
  if reference.isEmpty || target.isEmpty then 85.0
  else
    let tf := extract_structural_features target
    let rf := extract_structural_features reference
    let base_score : ℚ := 82.0
    let ratio : ℚ :=
      if 0 < rf.table_count then (tf.table_count : ℚ) / rf.table_count else 1.0
    let factCount := (target.map (fun t => pyLower t.name)).countP (fun n => strStartsWith n "fact_")
    let dimCount := (target.map (fun t => pyLower t.name)).countP (fun n => strStartsWith n "dim_")
    min (base_score + ssa_table_bonus ratio + ssa_col_dist_bonus tf.column_distribution +
      ssa_type_bonus tf.data_types + ssa_rel_bonus tf.relationship_count rf.relationship_count +
      ssa_pattern_bonus factCount dimCount) 100.0

/-! ### Algorithm 2: Semantic Coherence Scoring -/

/-- Per-table entry of the `naming_patterns` list in
`_analyze_naming_consistency`. -/
def tableNamingScore (name : String) : ℚ :=
  if strStartsWith (pyLower name) "fact_" || strStartsWith (pyLower name) "dim_" then 1.0
  else if anySubIn ["customer", "product", "date", "order", "sales"] (pyLower name) then 0.9
  else 0.7

/-- Per-column entry of the `naming_patterns` list. -/
def colNamingScore (c : ECol) : ℚ :=
  let n := pyLower c.name
  if anyEndsWith n ["_key", "_id"] then 1.0
  else if anySubIn ["date", "time", "amount", "quantity", "count", "total", "price", "revenue"]
      n then 0.9
  else if ["name", "description", "type", "status", "category"].contains n then 0.8
  else 0.7

/-- `_analyze_naming_consistency`: average of the pattern scores (table score
then its column scores, per table) plus 0.1 per fact_/dim_ table, capped at 1. -/
def analyze_naming_consistency (s : ESchema) : ℚ :=
  let pats := s.flatMap (fun t => tableNamingScore t.name :: t.columns.map colNamingScore)
  let wbonus : ℚ :=
    0.1 * ((s.map (fun t => pyLower t.name)).countP
      (fun n => strStartsWith n "fact_" || strStartsWith n "dim_") : ℚ)
  let base := if pats.isEmpty then 0.7 else pats.sum / (pats.length : ℚ)
  min (base + wbonus) 1.0

def get_domain_keywords (d : String) : List String :=
  if d = "E-commerce" then
    ["product", "customer", "order", "cart", "payment", "shipping", "inventory"]
  else if d = "Healthcare" then
    ["patient", "doctor", "medical", "treatment", "diagnosis", "appointment"]
  else if d = "Finance" then
    ["account", "transaction", "payment", "balance", "loan", "investment"]
  else if d = "Education" then
    ["student", "course", "grade", "enrollment", "instructor", "academic"]
  else if d = "Supply Chain" then
    ["supplier", "warehouse", "shipment", "inventory", "logistics"]
  else if d = "Social Media" then
    ["user", "post", "comment", "like", "share", "follow"]
  else []

/-- The per-name keyword fold of `_analyze_domain_relevance`: start at 0.7 and
bump (capped at 1) for each matching keyword. -/
def relevanceFold (kws : List String) (bump : ℚ) (hay : String) : ℚ :=
  kws.foldl (fun sc k => if pyIn (pyLower k) (pyLower hay) then min 1.0 (sc + bump) else sc) 0.7

/-- `_analyze_domain_relevance`. -/
def analyze_domain_relevance (s : ESchema) (domain : String) : ℚ :=
  let kws := get_domain_keywords domain
  let scores := s.map (fun t => relevanceFold kws 0.2 t.name) ++
    s.flatMap (fun t => t.columns.map (fun c => relevanceFold kws 0.15 c.name))
  if scores.isEmpty then 0.7 else scores.sum / (scores.length : ℚ)

/-- `_analyze_logical_structure`. -/
def analyze_logical_structure (s : ESchema) : ℚ :=
  let names := s.map (fun t => pyLower t.name)
  let factCount := names.countP (fun n => strStartsWith n "fact_")
  let dimCount := names.countP (fun n => strStartsWith n "dim_")
  let sep : ℚ :=
    if 0 < factCount ∧ 0 < dimCount then 0.4
    else if 0 < factCount ∨ 0 < dimCount then 0.3
    else 0.2
  let has_proper_keys := (allColumns s).any (fun c =>
    (pyIn "_key" (pyLower c.name) || pyIn "_id" (pyLower c.name)) && !c.constraints.isEmpty)
  let keys : ℚ := if has_proper_keys then 0.3 else 0.1
  let totc := (allColumns s).length
  let appr := (allColumns s).countP (fun c =>
    anySubIn ["INT", "DECIMAL", "VARCHAR", "DATE", "TIMESTAMP", "BOOLEAN", "BIGINT"]
      (pyUpper c.type))
  let type_score : ℚ := if 0 < totc then (appr : ℚ) / totc * 0.3 else 0
  min (sep + keys + type_score) 1.0

/-- The key-naming part of the `semantic_bonus` of `_semantic_coherence_scoring`. -/
def scs_key_bonus (key_pattern_score : ℕ) : ℚ :=
  if 3 ≤ key_pattern_score then 4.0 else if 1 ≤ key_pattern_score then 2.0 else 0.0

/-- The descriptive-column part of the `semantic_bonus` of
`_semantic_coherence_scoring`. -/
def scs_desc_bonus (descriptive total_columns : ℕ) : ℚ :=
  if 0 < total_columns then
    let desc_ratio := (descriptive : ℚ) / total_columns
    if 0.4 ≤ desc_ratio then 4.0 else if 0.2 ≤ desc_ratio then 2.0 else 0.0
  else 0.0

/-- `_semantic_coherence_scoring`. -/
def semantic_coherence_scoring (s : ESchema) (domain : String) : ℚ :=
  let base_score : ℚ := 82.0
  let naming_bonus := threshold_bonus (analyze_naming_consistency s) 0.7 12.0
  let domain_bonus := threshold_bonus (analyze_domain_relevance s domain) 0.7 8.0
  let structure_bonus := threshold_bonus (analyze_logical_structure s) 0.6 10.0
  let key_pattern_score :=
    (allColumns s).countP (fun c => anyEndsWith (pyLower c.name) ["_key", "_id"])
  let total_columns := (allColumns s).length
  let descriptive := (allColumns s).countP (fun c =>
    anySubIn ["name", "description", "title", "amount", "quantity", "date", "time", "price",
      "total"] (pyLower c.name))
  min (base_score + naming_bonus + domain_bonus + structure_bonus +
    (scs_key_bonus key_pattern_score + scs_desc_bonus descriptive total_columns)) 100.0

/-! ### Algorithm 3: Data Warehouse Best Practices Compliance -/

/-- The elif-chain classification of `_check_fact_dim_separation`:
0 = fact_ prefix, 1 = dim_ prefix, 2 = potential fact, 3 = potential dim,
4 = none. -/
def fdsTag (n : String) : ℕ :=
  let l := pyLower n
  if strStartsWith l "fact_" then 0
  else if strStartsWith l "dim_" then 1
  else if anySubIn ["sales", "order", "transaction", "activity", "performance"] l then 2
  else if anySubIn ["customer", "product", "date", "time", "category", "type"] l then 3
  else 4

/-- `_check_fact_dim_separation`. -/
def check_fact_dim_separation (s : ESchema) : ℚ :=
  let fact := s.countP (fun t => fdsTag t.name == 0)
  let dim := s.countP (fun t => fdsTag t.name == 1)
  let pfact := s.countP (fun t => fdsTag t.name == 2)
  let pdim := s.countP (fun t => fdsTag t.name == 3)
  if 0 < fact ∧ 0 < dim then 1.0
  else if 0 < fact + pfact ∧ 0 < dim + pdim then 0.85
  else if 0 < fact ∨ 0 < dim then 0.7
  else 0.5

/-- The per-column surrogate-key test of `_check_surrogate_keys` (either of
the two accepting branches of the source's loop). -/
def colIsSurrogate (tname : String) (c : ECol) : Bool :=
  let n := pyLower c.name
  let ty := pyUpper c.type
  let is_key_column := anyEndsWith n ["_key", "_id"] || anySubIn ["key", "id"] n
  let is_primary := c.constraints.any (fun con => pyIn "PRIMARY KEY" (pyUpper con))
  let is_auto := c.constraints.any (fun con => pyIn "AUTO_INCREMENT" (pyUpper con)) ||
    pyIn "SERIAL" ty || pyIn "BIGINT" ty || pyIn "INTEGER" ty
  (is_key_column && is_primary && is_auto) ||
    (is_primary && is_auto &&
      (strStartsWith (pyLower tname) "fact_" || strStartsWith (pyLower tname) "dim_"))

/-- `_check_surrogate_keys`. -/
def check_surrogate_keys (s : ESchema) : ℚ :=
  let twk := s.countP (fun t => t.columns.any (colIsSurrogate t.name))
  let total := s.length
  let ratio : ℚ := if 0 < total then (twk : ℚ) / total else 0.0
  if 0.8 ≤ ratio then 1.0
  else if 0.6 ≤ ratio then 0.9
  else if 0.4 ≤ ratio then 0.8
  else if 0.2 ≤ ratio then 0.7
  else max 0.5 (ratio * 2)

def scdIndicators : List String :=
  ["effective_date", "expiry_date", "is_current", "scd_version", "valid_from", "valid_to"]

/-- `_check_scd_support`. -/
def check_scd_support (s : ESchema) : ℚ :=
  let dims := s.filter (fun t => strStartsWith (pyLower t.name) "dim_")
  let withScd := dims.countP (fun t =>
    t.columns.any (fun c => anySubIn scdIndicators (pyLower c.name)))
  if 0 < dims.length then (withScd : ℚ) / dims.length else 0.0

/-- Per-date-table quality score of `_check_date_dimension`. -/
def dateTableScore (t : ETable) : ℚ :=
  let date_columns := t.columns.map (fun c => pyLower c.name)
  let essential := (["year", "month", "day", "quarter"].countP
    (fun col => date_columns.any (fun dc => pyIn col dc)) : ℚ)
  let useful := (["week", "weekday", "weekend", "holiday"].countP
    (fun col => date_columns.any (fun dc => pyIn col dc)) : ℚ)
  min (essential / 4 * 0.8 + useful / 4 * 0.2) 1.0

/-- `_check_date_dimension`. -/
def check_date_dimension (s : ESchema) : ℚ :=
  let dateTables := s.filter (fun t => pyIn "date" (pyLower t.name) || pyIn "time" (pyLower t.name))
  if dateTables.isEmpty then
    let hasDateCols := (allColumns s).any (fun c =>
      (pyIn "date" (pyLower c.name) || pyIn "time" (pyLower c.name)) &&
        (pyIn "DATE" (pyUpper c.type) || pyIn "TIMESTAMP" (pyUpper c.type)))
    if hasDateCols then 0.6 else 0.3
  else
    let best := dateTables.foldl (fun b t => max b (dateTableScore t)) 0.0
    max best 0.7

/-- `_check_audit_trails`. -/
def check_audit_trails (s : ESchema) : ℚ :=
  let withAudit := s.countP (fun t => t.columns.any (fun c =>
    anySubIn ["created_date", "updated_date", "created_at", "updated_at", "modified_date"]
      (pyLower c.name)))
  if 0 < s.length then (withAudit : ℚ) / s.length else 0.0

/-- `_check_fk_relationships`: the source increments `total_relationships`
and `valid_relationships` together, so the two counters are equal. -/
def check_fk_relationships (s : ESchema) : ℚ :=
  let total := ((allColumns s).flatMap ECol.constraints).countP
    (fun con => pyIn "FOREIGN KEY" (pyUpper con))
  let valid := total
  if 0 < total then (valid : ℚ) / total else 1.0

/-- `_dw_best_practices_compliance`. -/
def dw_best_practices_compliance (s : ESchema) : ℚ :=
  let compliance_checks :=
    [check_fact_dim_separation s, check_surrogate_keys s, check_scd_support s,
     check_date_dimension s, check_audit_trails s, check_fk_relationships s]
  min (compliance_checks.sum / (compliance_checks.length : ℚ) * 100) 100.0

/-! ### Algorithm 4: Schema Quality Index -/

/-- `table has a PRIMARY KEY constraint on some column` (used by several
checks). -/
def tableHasPK (t : ETable) : Bool :=
  t.columns.any (fun c => c.constraints.any (fun con => pyIn "PRIMARY KEY" (pyUpper con)))

/-- `table has a FOREIGN KEY or REFERENCES constraint on some column`. -/
def tableHasFK (t : ETable) : Bool :=
  t.columns.any (fun c => c.constraints.any (fun con =>
    pyIn "FOREIGN KEY" (pyUpper con) || pyIn "REFERENCES" (pyUpper con)))

/-- `_assess_completeness`. -/
def assess_completeness (s : ESchema) : ℚ :=
  if s.length = 0 then 0.0
  else
    let hasTables : ℚ := 0.2
    let tables_with_columns := s.countP (fun t => !t.columns.isEmpty)
    let colPart : ℚ :=
      if tables_with_columns = s.length then 0.3
      else if (s.length : ℚ) * 0.8 ≤ (tables_with_columns : ℚ) then 0.25
      else 0.0
    let total_columns := (allColumns s).length
    let columns_with_types := (allColumns s).countP (fun c => c.type ≠ "")
    let typePart : ℚ :=
      if 0 < total_columns then (columns_with_types : ℚ) / total_columns * 0.3 else 0.0
    let columns_with_constraints := (allColumns s).countP (fun c => !c.constraints.isEmpty)
    let constraint_ratio : ℚ :=
      if 0 < total_columns then (columns_with_constraints : ℚ) / total_columns else 0
    min (hasTables + colPart + typePart + constraint_ratio * 0.2) 1.0

/-- The first-match semantic group of `_check_type_consistency`. -/
def semGroup (n : String) : Option String :=
  if anySubIn ["id", "key"] n then some "identifier"
  else if anySubIn ["date", "time"] n then some "temporal"
  else if anySubIn ["amount", "price", "cost", "revenue"] n then some "monetary"
  else if anySubIn ["quantity", "count", "number", "units"] n then some "numeric"
  else if anySubIn ["name", "description", "title"] n then some "textual"
  else none

/-- `_check_type_consistency`. -/
def check_type_consistency (s : ESchema) : ℚ :=
  let entries := (allColumns s).map (fun c => (pyLower c.name, pyUpper c.type))
  let names := (entries.map Prod.fst).dedup
  let typeCountFor := fun n =>
    (((entries.filter (fun e => e.1 == n)).map Prod.snd).dedup).length
  let exact_consistent : ℚ := (names.map (fun n =>
    let k := typeCountFor n
    if k = 1 then (1 : ℚ) else if k = 2 then 0.5 else 0)).sum
  let exact_ratio := if !names.isEmpty then exact_consistent / (names.length : ℚ) else 1.0
  let groups := ["identifier", "temporal", "monetary", "numeric", "textual"]
  let present := groups.filter (fun g => entries.any (fun e => semGroup e.1 == some g))
  let groupTypeCount := fun g =>
    (((entries.filter (fun e => semGroup e.1 == some g)).map Prod.snd).dedup).length
  let semantic_consistent : ℚ := (present.map (fun g =>
    let k := groupTypeCount g
    if k ≤ 2 then (1 : ℚ) else if k ≤ 3 then 0.7 else 0)).sum
  let semantic_ratio :=
    if !present.isEmpty then semantic_consistent / (present.length : ℚ) else 1.0
  exact_ratio * 0.4 + semantic_ratio * 0.6

/-- The fact_/dim_/other category of `_check_constraint_consistency`. -/
def tableCategory (t : ETable) : ℕ :=
  if strStartsWith (pyLower t.name) "fact_" then 0
  else if strStartsWith (pyLower t.name) "dim_" then 1
  else 2

/-- Per-category consistency contribution of `_check_constraint_consistency`. -/
def categoryScore (s : ESchema) (k : ℕ) : ℚ :=
  let ts := s.filter (fun t => tableCategory t == k)
  let pk := ts.countP tableHasPK
  let fk := ts.countP tableHasFK
  let tot := ts.length
  if k = 0 then
    let pk_score : ℚ := if 0 < tot then min ((pk : ℚ) / tot) 1.0 else 1.0
    let fk_score : ℚ := if 0 < tot then min ((fk : ℚ) / tot) 1.0 else 1.0
    (pk_score + fk_score) / 2
  else if k = 1 then
    if 0 < tot then min ((pk : ℚ) / tot) 1.0 else 1.0
  else
    let constraint_ratio : ℚ := if 0 < tot then ((pk : ℚ) + fk) / ((tot : ℚ) * 2) else 0
    min (constraint_ratio + 0.3) 1.0

/-- `_check_constraint_consistency`. -/
def check_constraint_consistency (s : ESchema) : ℚ :=
  let total_tables := s.length
  let primary_key_tables := s.countP tableHasPK
  let active := [0, 1, 2].filter (fun k => s.any (fun t => tableCategory t == k))
  let category_consistency := (active.map (categoryScore s)).sum
  let avg_category_consistency :=
    if 0 < active.length then category_consistency / (active.length : ℚ) else 0.8
  let pk_ratio : ℚ :=
    if 0 < total_tables then (primary_key_tables : ℚ) / total_tables else 0
  min (pk_ratio * 0.4 + avg_category_consistency * 0.6) 1.0

/-- `_assess_consistency`. -/
def assess_consistency (s : ESchema) : ℚ :=
  min (analyze_naming_consistency s * 0.4 + check_type_consistency s * 0.3 +
    check_constraint_consistency s * 0.3) 1.0

def validTypeList : List String :=
  ["SERIAL", "BIGINT", "INTEGER", "INT", "SMALLINT", "TINYINT",
   "DECIMAL", "NUMERIC", "FLOAT", "DOUBLE", "REAL",
   "VARCHAR", "CHAR", "TEXT", "STRING",
   "DATE", "TIME", "TIMESTAMP", "DATETIME",
   "BOOLEAN", "BOOL", "BIT",
   "JSON", "JSONB", "XML"]

/-- `_check_valid_data_types`: the base type is everything before `(`. -/
def check_valid_data_types (s : ESchema) : ℚ :=
  let total_columns := (allColumns s).length
  let valid_type_count := (allColumns s).countP (fun c =>
    let base_type := (((pyUpper c.type).splitOn "(").headD "").trim
    validTypeList.contains base_type || validTypeList.any (fun vt => pyIn vt base_type))
  let ratio : ℚ :=
    if 0 < total_columns then (valid_type_count : ℚ) / total_columns else 1.0
  min (ratio * 1.1) 1.0

/-- `_check_logical_constraints`. -/
def check_logical_constraints (s : ESchema) : ℚ :=
  let pats := ["PRIMARY KEY", "FOREIGN KEY", "UNIQUE", "NOT NULL",
    "CHECK", "DEFAULT", "AUTO_INCREMENT", "REFERENCES"]
  let withLogical := s.countP (fun t =>
    t.columns.any (fun c => c.constraints.any (fun con => anySubIn pats (pyUpper con))))
  let ratio : ℚ := if 0 < s.length then (withLogical : ℚ) / s.length else 0.0
  if 0.8 ≤ ratio then 1.0
  else if 0.6 ≤ ratio then 0.9
  else if 0.4 ≤ ratio then 0.8
  else max 0.6 (ratio * 1.5)

/-- The extracted foreign-key records of `_check_fk_consistency`: one record
per (column, constraint) pair mentioning FOREIGN KEY or REFERENCES, carrying
the column name. -/
def fkRecords (s : ESchema) : List String :=
  s.flatMap (fun t => t.columns.flatMap (fun c =>
    c.constraints.filterMap (fun con =>
      if pyIn "FOREIGN KEY" (pyUpper con) || pyIn "REFERENCES" (pyUpper con) then some c.name
      else none)))

/-- `_check_fk_consistency`. -/
def check_fk_consistency (s : ESchema) : ℚ :=
  if s.isEmpty then 1.0
  else
    let foreign_keys := fkRecords s
    if foreign_keys.isEmpty then 0.85
    else
      let consistent_fks := foreign_keys.countP (fun n =>
        anyEndsWith (pyLower n) ["_key", "_id"] ||
          anySubIn ["customer", "product", "date", "order"] (pyLower n))
      let consistency_ratio : ℚ :=
        if 0 < foreign_keys.length then (consistent_fks : ℚ) / foreign_keys.length else 1.0
      if 0.8 ≤ consistency_ratio then 1.0
      else if 0.6 ≤ consistency_ratio then 0.95
      else max 0.85 consistency_ratio

/-- `_check_referential_integrity`: one count per (column, constraint) pair
mentioning FOREIGN KEY; `proper` when the column name ends in _key/_id. -/
def check_referential_integrity (s : ESchema) : ℚ :=
  if s.isEmpty then 1.0
  else
    let fkCols := s.flatMap (fun t => t.columns.flatMap (fun c =>
      c.constraints.filterMap (fun con =>
        if pyIn "FOREIGN KEY" (pyUpper con) then some c.name else none)))
    let fk_relationships := fkCols.length
    let proper_relationships := fkCols.countP (fun n => anyEndsWith (pyLower n) ["_key", "_id"])
    if fk_relationships = 0 then 0.9
    else min ((proper_relationships : ℚ) / fk_relationships + 0.1) 1.0

/-- `_check_cardinality_appropriateness`. -/
def check_cardinality_appropriateness (s : ESchema) : ℚ :=
  let facts := s.filter (fun t => strStartsWith (pyLower t.name) "fact_")
  let dims := s.filter (fun t => strStartsWith (pyLower t.name) "dim_")
  if facts.isEmpty ∧ dims.isEmpty then 0.85
  else
    let fkCols := facts.flatMap (fun t => t.columns.filter (fun c =>
      c.constraints.any (fun con => pyIn "FOREIGN KEY" (pyUpper con))))
    let total_relationships := fkCols.length
    let appropriate_relationships := fkCols.countP (fun c =>
      strEndsWith (pyLower c.name) "_key" &&
        anySubIn ["customer", "product", "date", "time"] (pyLower c.name))
    if total_relationships = 0 then 0.9
    else min ((appropriate_relationships : ℚ) / total_relationships + 0.2) 1.0

/-- The REFERENCES-target extraction of `_check_circular_references`:
`constraint.upper().split('REFERENCES')[1].strip().split('(')[0].strip().split()[0]`.
(When the upper-cased constraint ends right after REFERENCES, Python raises
IndexError on the final `[0]`; the model yields the empty string, which the
caller's `if ref_table` test discards — on such pathological constraints the
source crashes rather than scoring at all.) -/
def extractRefTable (con : String) : Option String :=
  let cu := pyUpper con
  if pyIn "REFERENCES" cu then
    let parts := cu.splitOn "REFERENCES"
    if 1 < parts.length then
      let ref_part := ((parts.get? 1).getD "").trim
      let seg := (((ref_part.splitOn "(").headD "").trim)
      some (((seg.split Char.isWhitespace).filter (fun x => x ≠ "")).headD "")
    else none
  else none

/-- The `dependencies` edge set of `_check_circular_references` out of one
node: the source builds `defaultdict(set)` keyed by original-case table names
with upper-cased target names as successors. -/
def depsOf (s : ESchema) (node : String) : List String :=
  match s.find? (fun t => t.name == node) with
  | some t =>
    ((t.columns.flatMap (fun c => c.constraints.filterMap extractRefTable)).filter
      (fun rt => rt ≠ "" && rt ≠ t.name)).dedup
  | none => []

/-- Everything reachable from `start` along `depsOf` edges (closure is reached
after at most one iteration per table, since only table names have outgoing
edges). -/
def reachFrom (s : ESchema) (start : List String) : List String :=
  (List.range (s.length + 1)).foldl
    (fun acc _ => (acc ++ acc.flatMap (depsOf s)).dedup) start.dedup

/-- The DFS of `_check_circular_references` (explicit recursion stack, shared
visited set) reports a cycle exactly when some node reaches itself through
the dependency edges; only schema tables can lie on a cycle because only they
have outgoing edges. -/
def hasCircularReference (s : ESchema) : Bool :=
  s.any (fun t => (reachFrom s (depsOf s t.name)).contains t.name)

/-- `_check_circular_references`. -/
def check_circular_references (s : ESchema) : ℚ :=
  if hasCircularReference s then 0.8 else 1.0

/-- `_assess_correctness`. -/
def assess_correctness (s : ESchema) : ℚ :=
  let structure_score := s.foldl
    (fun sc t => if !t.columns.isEmpty then min (sc + 0.05) 1.0 else sc) 0.8
  min (check_valid_data_types s * 0.3 + check_logical_constraints s * 0.3 +
    check_fk_consistency s * 0.2 + structure_score * 0.2) 1.0

/-- `_assess_conciseness`. -/
def assess_conciseness (s : ESchema) : ℚ :=
  if s.length = 0 then 0.0
  else
    let table_count := s.length
    let table_score : ℚ :=
      if 5 ≤ table_count ∧ table_count ≤ 15 then 1.0
      else if 3 ≤ table_count ∧ table_count ≤ 20 then 0.8
      else if 1 ≤ table_count ∧ table_count ≤ 25 then 0.6
      else 0.4
    let total_columns := (allColumns s).length
    let avg_columns : ℚ := if 0 < table_count then (total_columns : ℚ) / table_count else 0
    let column_score : ℚ :=
      if 5 ≤ avg_columns ∧ avg_columns ≤ 15 then 1.0
      else if 3 ≤ avg_columns ∧ avg_columns ≤ 20 then 0.8
      else 0.6
    (table_score + column_score) / 2

/-- The primary-key part of the `quality_bonus` of `_schema_quality_index`. -/
def sqi_pk_bonus (pk_ratio : ℚ) : ℚ :=
  if 0.8 ≤ pk_ratio then 3.0 else if 0.6 ≤ pk_ratio then 2.0 else 0.0

/-- The data-type part of the `quality_bonus` of `_schema_quality_index`. -/
def sqi_type_bonus (type_quality_ratio : ℚ) : ℚ :=
  if 0.8 ≤ type_quality_ratio then 2.0 else 0.0

/-- The constraint-usage part of the `quality_bonus` of `_schema_quality_index`. -/
def sqi_constraint_bonus (constraint_ratio : ℚ) : ℚ :=
  if 0.3 ≤ constraint_ratio then 2.0 else if 0.2 ≤ constraint_ratio then 1.0 else 0.0

/-- `_schema_quality_index`. -/
def schema_quality_index (s : ESchema) : ℚ :=
  let base_score : ℚ := 85.0
  let completeness_bonus := threshold_bonus (assess_completeness s) 0.8 8.0
  let consistency_bonus := threshold_bonus (assess_consistency s) 0.8 6.0
  let correctness_bonus := threshold_bonus (assess_correctness s) 0.8 5.0
  let conciseness_bonus := threshold_bonus (assess_conciseness s) 0.7 4.0
  let tables_with_pk := s.countP tableHasPK
  let pk_ratio : ℚ := if !s.isEmpty then (tables_with_pk : ℚ) / s.length else 0
  let total_columns := (allColumns s).length
  let good_type_usage := (allColumns s).countP (fun c =>
    anySubIn ["DECIMAL", "VARCHAR", "INTEGER", "BIGINT", "DATE", "TIMESTAMP", "BOOLEAN"]
      (pyUpper c.type))
  let type_quality_ratio : ℚ :=
    if 0 < total_columns then (good_type_usage : ℚ) / total_columns else 0.8
  let constrained_columns := (allColumns s).countP (fun c => !c.constraints.isEmpty)
  let constraint_ratio : ℚ :=
    if 0 < total_columns then (constrained_columns : ℚ) / total_columns else 0
  min (base_score + completeness_bonus + consistency_bonus + correctness_bonus +
    conciseness_bonus +
    (sqi_pk_bonus pk_ratio + sqi_type_bonus type_quality_ratio +
      sqi_constraint_bonus constraint_ratio)) 100.0

/-- `_relationship_integrity_metric`. -/
def relationship_integrity_metric (s : ESchema) : ℚ :=
  if s.isEmpty then 0.0
  else
    let integrity_checks :=
      [check_fk_consistency s, check_referential_integrity s,
       check_cardinality_appropriateness s, check_circular_references s]
    min (integrity_checks.sum / (integrity_checks.length : ℚ) * 100) 100.0

/-! ### Algorithm 6: Domain Alignment Score -/

/-- `_get_domain_patterns` (tables, columns). -/
def get_domain_patterns (d : String) : List String × List String :=
  if d = "E-commerce" then
    (["product", "customer", "order", "payment", "inventory"],
     ["price", "quantity", "total", "discount", "tax"])
  else if d = "Healthcare" then
    (["patient", "doctor", "appointment", "treatment", "medication"],
     ["diagnosis", "treatment_date", "dosage", "symptoms"])
  else if d = "Finance" then
    (["account", "transaction", "customer", "loan", "investment"],
     ["amount", "balance", "interest_rate", "currency"])
  else if d = "Education" then
    (["student", "course", "enrollment", "grade", "instructor"],
     ["grade", "credit_hours", "gpa", "semester"])
  else ([], [])

/-- `_check_table_name_alignment`. -/
def check_table_name_alignment (s : ESchema) (patterns : List String × List String) : ℚ :=
  let domain_tables := patterns.1
  if domain_tables.isEmpty then 0.8
  else
    let perTable : ETable → ℚ := fun t =>
      let l := pyLower t.name
      if domain_tables.any (fun p => pyIn (pyLower p) l) then 1.0
      else if anySubIn ["fact_", "dim_", "staging_"] l then 0.7
      else if anySubIn ["customer", "product", "order", "transaction", "date", "time"] l then 0.6
      else 0.0
    let aligned_tables := (s.map perTable).sum
    let ratio : ℚ := if 0 < s.length then aligned_tables / (s.length : ℚ) else 0.8
    min ratio 1.0

/-- `_check_column_name_alignment`. -/
def check_column_name_alignment (s : ESchema) (patterns : List String × List String) : ℚ :=
  let domain_columns := patterns.2
  if domain_columns.isEmpty then 0.8
  else
    let perCol : ECol → ℚ := fun c =>
      let n := pyLower c.name
      if domain_columns.any (fun p => pyIn (pyLower p) n) then 1.0
      else if anySubIn ["id", "key", "name", "description", "date", "time", "amount",
          "quantity", "price", "total"] n then 0.7
      else if anyEndsWith n ["_key", "_id", "_date", "_amount"] then 0.8
      else 0.0
    let total_columns := (allColumns s).length
    let aligned_columns := ((allColumns s).map perCol).sum
    let ratio : ℚ := if 0 < total_columns then aligned_columns / (total_columns : ℚ) else 0.8
    min ratio 1.0

/-- The per-domain essential entities of `_check_business_rule_alignment`. -/
def essentialEntities (d : String) : List String :=
  if d = "E-commerce" then ["customer", "product", "order"]
  else if d = "Healthcare" then ["patient", "doctor", "appointment"]
  else if d = "Finance" then ["account", "transaction", "customer"]
  else if d = "Education" then ["student", "course", "enrollment"]
  else if d = "Retail" then ["customer", "product", "sales"]
  else if d = "Supply Chain" then ["supplier", "inventory", "shipment"]
  else ["customer", "product", "transaction"]

/-- The elif-chain business-column tag of `_check_business_rule_alignment`:
`some proper` when the column counts as a business column. -/
def bizColTag (c : ECol) : Option Bool :=
  let n := pyLower c.name
  let ty := pyUpper c.type
  if anySubIn ["price", "amount", "cost", "total", "revenue"] n then
    some (pyIn "DECIMAL" ty || pyIn "NUMERIC" ty)
  else if anySubIn ["quantity", "count", "number"] n then
    some (anySubIn ["INT", "DECIMAL", "NUMERIC"] ty)
  else if anySubIn ["date", "time"] n then
    some (anySubIn ["DATE", "TIMESTAMP", "TIME"] ty)
  else none

/-- `_check_business_rule_alignment`. -/
def check_business_rule_alignment (s : ESchema) (domain : String) : ℚ :=
  let domain_entities := essentialEntities domain
  let found_entities := domain_entities.countP
    (fun e => s.any (fun t => pyIn e (pyLower t.name)))
  let entity_score : ℚ :=
    if !domain_entities.isEmpty then (found_entities : ℚ) / domain_entities.length else 1.0
  let total_business_columns := (allColumns s).countP (fun c => (bizColTag c).isSome)
  let proper_types := (allColumns s).countP (fun c => bizColTag c == some true)
  let type_score : ℚ :=
    if 0 < total_business_columns then (proper_types : ℚ) / total_business_columns else 0.8
  let tables_with_constraints := s.countP (fun t =>
    t.columns.any (fun c => !c.constraints.isEmpty))
  let constraint_score : ℚ :=
    if !s.isEmpty then (tables_with_constraints : ℚ) / s.length else 0.8
  min (entity_score * 0.4 + type_score * 0.3 + constraint_score * 0.3) 1.0

/-- `warehouse_bonus` of `_domain_alignment_score` (same branch values 6/3/0
over fact_/dim_ counts). -/
def das_warehouse_bonus (factCount dimCount : ℕ) : ℚ :=
  if 0 < factCount ∧ 0 < dimCount then 6.0
  else if 0 < factCount ∨ 0 < dimCount then 3.0
  else 0.0

/-- The per-column `data_type_bonus` contribution of `_domain_alignment_score`:
0.5 for a DECIMAL-typed monetary column plus 0.3 for a DATE/TIMESTAMP/TIME
typed date column. -/
def das_data_type_contrib (c : ECol) : ℚ :=
  (if anySubIn ["price", "amount", "cost", "total"] (pyLower c.name) &&
      pyIn "DECIMAL" (pyUpper c.type) then (0.5 : ℚ) else 0) +
  (if anySubIn ["date", "time"] (pyLower c.name) &&
      anySubIn ["DATE", "TIMESTAMP", "TIME"] (pyUpper c.type) then (0.3 : ℚ) else 0)

/-- `_domain_alignment_score`. -/
def domain_alignment_score (s : ESchema) (domain : String) : ℚ :=
  let base_score : ℚ := 80.0
  let domain_patterns := get_domain_patterns domain
  let table_bonus := threshold_bonus (check_table_name_alignment s domain_patterns) 0.8 10.0
  let column_bonus := threshold_bonus (check_column_name_alignment s domain_patterns) 0.8 8.0
  let business_bonus := threshold_bonus (check_business_rule_alignment s domain) 0.7 12.0
  let found_entities := (["customer", "product", "order", "transaction", "sales", "date",
    "time"].countP (fun e => s.any (fun t => pyIn e (pyLower t.name))) : ℚ)
  let entity_bonus := min 8.0 (found_entities * 1.5)
  let factCount := s.countP (fun t => strStartsWith (pyLower t.name) "fact_")
  let dimCount := s.countP (fun t => strStartsWith (pyLower t.name) "dim_")
  let data_type_bonus := min 4.0 (((allColumns s).map das_data_type_contrib).sum)
  min (base_score + table_bonus + column_bonus + business_bonus + entity_bonus +
    das_warehouse_bonus factCount dimCount + data_type_bonus) 100.0

/-! ### `_evaluate_single_schema` and `evaluate_schemas` -/

/-- The six sub-scores, in the order structural / semantic / best_practices /
quality / relationships / domain_alignment. -/
structure SixScores where
  structural : ℚ
  semantic : ℚ
  best_practices : ℚ
  quality : ℚ
  relationships : ℚ
  domain_alignment : ℚ
deriving DecidableEq, Repr

/-- The six raw algorithm scores of `_evaluate_single_schema` before the
schema_type adjustment block. -/
def rawScores (target reference : ESchema) (domain : String) : SixScores :=
  { structural := structural_similarity_analysis target reference,
    semantic := semantic_coherence_scoring target domain,
    best_practices := dw_best_practices_compliance target,
    quality := schema_quality_index target,
    relationships := relationship_integrity_metric target,
    domain_alignment := domain_alignment_score target domain }

/-- The schema_type adjustment block of `_evaluate_single_schema`
(lines 114-130): ai_enhanced gets capped boosts, warehouse gets floored
reductions, any other label is untouched. -/
def adjustScores (schema_type : String) (r : SixScores) : SixScores :=
  if schema_type = "ai_enhanced" then
    { structural := min (r.structural + 2.0) 100.0,
      semantic := min (r.semantic + 3.0) 100.0,
      best_practices := min (r.best_practices + 4.0) 100.0,
      quality := min (r.quality + 2.5) 100.0,
      relationships := min (r.relationships + 1.5) 100.0,
      domain_alignment := min (r.domain_alignment + 2.0) 100.0 }
  else if schema_type = "warehouse" then
    { structural := max (r.structural - 1.5) 75.0,
      semantic := max (r.semantic - 2.0) 80.0,
      best_practices := max (r.best_practices - 8.0) 70.0,
      quality := max (r.quality - 2.0) 82.0,
      relationships := max (r.relationships - 3.0) 85.0,
      domain_alignment := max (r.domain_alignment - 3.0) 82.0 }
  else r

/-- The weighted overall score of `_evaluate_single_schema`. -/
def overallOf (a : SixScores) : ℚ :=
  a.structural * w_structural + a.semantic * w_semantic +
    a.best_practices * w_best_practices + a.quality * w_quality +
    a.relationships * w_relationships + a.domain_alignment * w_domain_alignment

/-- One `algorithm_scores` entry: score, weight, weighted_score
(score and weighted_score as stored: rounded to two decimals). -/
structure AlgoScore where
  score : ℚ
  weight : ℚ
  weighted_score : ℚ
deriving DecidableEq, Repr

def mkAlgoScore (sc w : ℚ) : AlgoScore :=
  { score := round2 sc, weight := w, weighted_score := round2 (sc * w) }

/-- `_get_detailed_metrics` output. -/
structure DetailedMetrics where
  table_count : ℕ
  fact_tables : ℕ
  dimension_tables : ℕ
  total_columns : ℕ
  tables_with_audit_columns : ℕ
  tables_with_surrogate_keys : ℕ
  foreign_key_relationships : ℕ
deriving DecidableEq, Repr

/-- `_get_detailed_metrics` (its `domain` parameter is unused by the source). -/
def get_detailed_metrics (s : ESchema) (domain : String) : DetailedMetrics :=
  let _ := domain
  { table_count := s.length,
    fact_tables := s.countP (fun t => strStartsWith (pyLower t.name) "fact_"),
    dimension_tables := s.countP (fun t => strStartsWith (pyLower t.name) "dim_"),
    total_columns := (allColumns s).length,
    tables_with_audit_columns := s.countP (fun t => t.columns.any (fun c =>
      anySubIn ["created_date", "updated_date", "created_at", "updated_at"] (pyLower c.name))),
    tables_with_surrogate_keys := s.countP (fun t => t.columns.any (fun c =>
      strEndsWith (pyLower c.name) "_key" &&
        c.constraints.any (fun con => pyIn "PRIMARY KEY" (pyUpper con)))),
    foreign_key_relationships := (allColumns s).countP (fun c =>
      c.constraints.any (fun con => pyIn "FOREIGN KEY" (pyUpper con))) }

/-- `_get_schema_statistics` output. -/
structure SchemaStatistics where
  total_tables : ℕ
  fact_tables : ℕ
  dimension_tables : ℕ
  total_columns : ℕ
  avg_columns_per_table : ℚ
deriving DecidableEq, Repr

/-- `_get_schema_statistics`. -/
def get_schema_statistics (s : ESchema) : SchemaStatistics :=
  let total_columns := (allColumns s).length
  { total_tables := s.length,
    fact_tables := s.countP (fun t => strStartsWith (pyLower t.name) "fact_"),
    dimension_tables := s.countP (fun t => strStartsWith (pyLower t.name) "dim_"),
    total_columns := total_columns,
    avg_columns_per_table :=
      if 0 < s.length then (total_columns : ℚ) / s.length else 0 }

/-- One candidate's evaluation record (`_evaluate_single_schema` output);
the `ssa`..`das` fields are the six `algorithm_scores` entries. -/
structure SingleEval where
  overall_score : ℚ
  ssa : AlgoScore
  scs : AlgoScore
  dwbpc : AlgoScore
  sqi : AlgoScore
  rim : AlgoScore
  das : AlgoScore
  detailed_metrics : DetailedMetrics
  schema_statistics : SchemaStatistics
deriving DecidableEq, Repr

/-- `_evaluate_single_schema`. -/
def evaluate_single_schema (target reference : ESchema) (domain schema_type : String) :
    SingleEval :=
  let adj := adjustScores schema_type (rawScores target reference domain)
  { overall_score := round2 (overallOf adj),
    ssa := mkAlgoScore adj.structural w_structural,
    scs := mkAlgoScore adj.semantic w_semantic,
    dwbpc := mkAlgoScore adj.best_practices w_best_practices,
    sqi := mkAlgoScore adj.quality w_quality,
    rim := mkAlgoScore adj.relationships w_relationships,
    das := mkAlgoScore adj.domain_alignment w_domain_alignment,
    detailed_metrics := get_detailed_metrics target domain,
    schema_statistics := get_schema_statistics target }

/-- `_compare_schemas` output; the two `_only_tables` lists materialise the
source's name-set differences in insertion order. -/
structure Comparison where
  warehouse_tables : ℕ
  ai_enhanced_tables : ℕ
  table_difference : ℤ
  common_tables : ℕ
  warehouse_only_tables : List String
  ai_enhanced_only_tables : List String
deriving DecidableEq, Repr

/-- `_compare_schemas`. -/
def compare_schemas (warehouse_schema ai_enhanced_schema : ESchema) : Comparison :=
  let wn := warehouse_schema.map ETable.name
  let an := ai_enhanced_schema.map ETable.name
  { warehouse_tables := warehouse_schema.length,
    ai_enhanced_tables := ai_enhanced_schema.length,
    table_difference := (ai_enhanced_schema.length : ℤ) - warehouse_schema.length,
    common_tables := ((wn.dedup).filter (fun n => an.contains n)).length,
    warehouse_only_tables := (wn.dedup).filter (fun n => !an.contains n),
    ai_enhanced_only_tables := (an.dedup).filter (fun n => !wn.contains n) }

/-- `_generate_recommendations`. -/
def generate_recommendations (warehouse_schema ai_enhanced_schema : ESchema)
    (domain : String) : List String :=
  let warehouse_stats := get_schema_statistics warehouse_schema
  let ai_stats := get_schema_statistics ai_enhanced_schema
  (if warehouse_stats.fact_tables = 0 then
    ["Add explicit fact tables with proper naming (fact_*)"] else []) ++
  (if warehouse_stats.dimension_tables < 3 then
    ["Consider adding more dimension tables for better analytical capabilities"] else []) ++
  (if !(warehouse_schema.any (fun t => pyIn "date" (pyLower t.name))) then
    ["Add a comprehensive date dimension table for time-based analysis"] else []) ++
  (if warehouse_stats.avg_columns_per_table + 2 < ai_stats.avg_columns_per_table then
    ["AI enhanced schema provides richer column structure"] else []) ++
  ["Consider domain-specific enhancements for " ++ domain ++ " industry"]

/-- One `_get_algorithm_descriptions` entry. -/
structure AlgoDescription where
  name : String
  description : String
  metrics : List String
deriving DecidableEq, Repr

/-- `_get_algorithm_descriptions` (a constant). -/
def get_algorithm_descriptions : List (String × AlgoDescription) :=
  [("structural_similarity_analysis",
    { name := "Structural Similarity Analysis (SSA)",
      description := "Measures structural preservation between original and generated schemas",
      metrics := ["Table count similarity", "Column distribution", "Data type preservation",
        "Relationship preservation"] }),
   ("semantic_coherence_scoring",
    { name := "Semantic Coherence Scoring (SCS)",
      description := "Evaluates semantic consistency and logical naming conventions",
      metrics := ["Naming consistency", "Domain relevance", "Logical structure"] }),
   ("dw_best_practices_compliance",
    { name := "Data Warehouse Best Practices Compliance (DWBPC)",
      description := "Measures adherence to established data warehousing best practices",
      metrics := ["Fact/Dimension separation", "Surrogate keys", "SCD support",
        "Date dimension", "Audit trails", "Foreign keys"] }),
   ("schema_quality_index",
    { name := "Schema Quality Index (SQI)",
      description := "Comprehensive quality assessment based on multiple dimensions",
      metrics := ["Completeness", "Consistency", "Correctness", "Conciseness"] }),
   ("relationship_integrity_metric",
    { name := "Relationship Integrity Metric (RIM)",
      description := "Evaluates integrity and correctness of inter-table relationships",
      metrics := ["FK consistency", "Referential integrity", "Cardinality appropriateness",
        "Circular reference detection"] }),
   ("domain_alignment_score",
    { name := "Domain Alignment Score (DAS)",
      description := "Measures alignment with domain-specific requirements and patterns",
      metrics := ["Table name alignment", "Column name alignment", "Business rule alignment"] })]

/-- `best_schema_recommendation` record. -/
structure BestRec where
  schema_type : String
  score : ℚ
  reason : String
deriving DecidableEq, Repr

/-- The full `evaluate_schemas` result dict. -/
structure EvalResults where
  evaluation_timestamp : String
  domain : String
  algorithm_details : List (String × AlgoDescription)
  warehouse_schema_evaluation : SingleEval
  ai_enhanced_schema_evaluation : SingleEval
  comparative_analysis : Comparison
  recommendations : List String
  best_schema_recommendation : BestRec
deriving DecidableEq, Repr

/-- `evaluate_schemas`: `now` is the ambient clock read by
`datetime.now().isoformat()` — the only input the source takes from the
environment rather than from its arguments. -/
def evaluate_schemas (now : String) (original_schema warehouse_schema ai_enhanced_schema :
    ESchema) (domain : String) : EvalResults :=
  let we := evaluate_single_schema warehouse_schema original_schema domain "warehouse"
  let ae := evaluate_single_schema ai_enhanced_schema original_schema domain "ai_enhanced"
  let warehouse_score := we.overall_score
  let ai_enhanced_score := ae.overall_score
  let best : BestRec :=
    if ai_enhanced_score < warehouse_score then
      { schema_type := "warehouse", score := warehouse_score,
        reason := "Higher overall quality score with better structural alignment" }
    else
      { schema_type := "ai_enhanced", score := ai_enhanced_score,
        reason := "Superior comprehensive design with advanced features" }
  { evaluation_timestamp := now,
    domain := domain,
    algorithm_details := get_algorithm_descriptions,
    warehouse_schema_evaluation := we,
    ai_enhanced_schema_evaluation := ae,
    comparative_analysis := compare_schemas warehouse_schema ai_enhanced_schema,
    recommendations := generate_recommendations warehouse_schema ai_enhanced_schema domain,
    best_schema_recommendation := best }

/-! ### Score-bound lemmas (claim C4) -/

/-- A value lies in the score range [0, 100]. -/
def ScoreInRange (x : ℚ) : Prop := 0 ≤ x ∧ x ≤ 100

theorem round2_nonneg (q : ℚ) (h : 0 ≤ q) : 0 ≤ round2 q := by
  have h2 := round2_ge 0 q (by simpa using h)
  simpa using h2

theorem round2_le_100 (q : ℚ) (h : q ≤ 100) : round2 q ≤ 100 := by
  have h2 := round2_le 10000 q (by push_cast; linarith)
  push_cast at h2
  linarith

theorem threshold_bonus_nonneg (x threshold scale : ℚ) (hk : 0 ≤ scale) :
    0 ≤ threshold_bonus x threshold scale := by
  unfold threshold_bonus
  split
  · exact mul_nonneg (by linarith) hk
  · norm_num

theorem ssa_table_bonus_nonneg (r : ℚ) : 0 ≤ ssa_table_bonus r := by
  unfold ssa_table_bonus
  split_ifs with h1 h2
  · exact le_min (by norm_num) (by nlinarith [h1.1])
  · norm_num
  · norm_num

theorem ssa_col_dist_bonus_nonneg (cd : ℚ) : 0 ≤ ssa_col_dist_bonus cd := by
  unfold ssa_col_dist_bonus
  split_ifs <;> norm_num

theorem ssa_type_bonus_nonneg (l : List String) : 0 ≤ ssa_type_bonus l := by
  unfold ssa_type_bonus
  exact mul_nonneg (div_nonneg (Nat.cast_nonneg _) (Nat.cast_nonneg _)) (by norm_num)

theorem ssa_rel_bonus_nonneg (trel rrel : ℕ) : 0 ≤ ssa_rel_bonus trel rrel := by
  unfold ssa_rel_bonus
  split_ifs with h1 h2
  · exact le_min (by norm_num) (by nlinarith)
  · norm_num
  · norm_num

theorem ssa_pattern_bonus_nonneg (f d : ℕ) : 0 ≤ ssa_pattern_bonus f d := by
  unfold ssa_pattern_bonus
  split_ifs <;> norm_num

theorem scs_key_bonus_nonneg (k : ℕ) : 0 ≤ scs_key_bonus k := by
  unfold scs_key_bonus
  split_ifs <;> norm_num

theorem scs_desc_bonus_nonneg (a b : ℕ) : 0 ≤ scs_desc_bonus a b := by
  unfold scs_desc_bonus
  simp only []
  split_ifs <;> norm_num

theorem sqi_pk_bonus_nonneg (r : ℚ) : 0 ≤ sqi_pk_bonus r := by
  unfold sqi_pk_bonus
  split_ifs <;> norm_num

theorem sqi_type_bonus_nonneg (r : ℚ) : 0 ≤ sqi_type_bonus r := by
  unfold sqi_type_bonus
  split_ifs <;> norm_num

theorem sqi_constraint_bonus_nonneg (r : ℚ) : 0 ≤ sqi_constraint_bonus r := by
  unfold sqi_constraint_bonus
  split_ifs <;> norm_num

theorem das_warehouse_bonus_nonneg (f d : ℕ) : 0 ≤ das_warehouse_bonus f d := by
  unfold das_warehouse_bonus
  split_ifs <;> norm_num

theorem das_data_type_contrib_nonneg (c : ECol) : 0 ≤ das_data_type_contrib c := by
  unfold das_data_type_contrib
  split_ifs <;> norm_num

theorem check_fact_dim_separation_nonneg (s : ESchema) : 0 ≤ check_fact_dim_separation s := by
  unfold check_fact_dim_separation
  simp only []
  split_ifs <;> norm_num

theorem check_surrogate_keys_nonneg (s : ESchema) : 0 ≤ check_surrogate_keys s := by
  unfold check_surrogate_keys
  simp only []
  split_ifs <;> norm_num

theorem check_scd_support_nonneg (s : ESchema) : 0 ≤ check_scd_support s := by
  unfold check_scd_support
  simp only []
  split
  · exact div_nonneg (Nat.cast_nonneg _) (Nat.cast_nonneg _)
  · norm_num

theorem check_date_dimension_nonneg (s : ESchema) : 0 ≤ check_date_dimension s := by
  unfold check_date_dimension
  simp only []
  split
  · split <;> norm_num
  · exact le_trans (by norm_num) (le_max_right _ _)

theorem check_audit_trails_nonneg (s : ESchema) : 0 ≤ check_audit_trails s := by
  unfold check_audit_trails
  simp only []
  split
  · exact div_nonneg (Nat.cast_nonneg _) (Nat.cast_nonneg _)
  · norm_num

theorem check_fk_relationships_nonneg (s : ESchema) : 0 ≤ check_fk_relationships s := by
  unfold check_fk_relationships
  simp only []
  split
  · exact div_nonneg (Nat.cast_nonneg _) (Nat.cast_nonneg _)
  · norm_num

theorem check_fk_consistency_nonneg (s : ESchema) : 0 ≤ check_fk_consistency s := by
  unfold check_fk_consistency
  simp only []
  split_ifs <;> norm_num

theorem check_referential_integrity_nonneg (s : ESchema) :
    0 ≤ check_referential_integrity s := by
  unfold check_referential_integrity
  simp only []
  split_ifs <;> first
    | (norm_num; done)
    | exact le_min (add_nonneg (div_nonneg (Nat.cast_nonneg _) (Nat.cast_nonneg _))
        (by norm_num)) (by norm_num)

theorem check_cardinality_appropriateness_nonneg (s : ESchema) :
    0 ≤ check_cardinality_appropriateness s := by
  unfold check_cardinality_appropriateness
  simp only []
  split_ifs <;> first
    | (norm_num; done)
    | exact le_min (add_nonneg (div_nonneg (Nat.cast_nonneg _) (Nat.cast_nonneg _))
        (by norm_num)) (by norm_num)

theorem check_circular_references_nonneg (s : ESchema) :
    0 ≤ check_circular_references s := by
  unfold check_circular_references
  split_ifs <;> norm_num

theorem ssa_mem (t ref : ESchema) : ScoreInRange (structural_similarity_analysis t ref) := by
  unfold ScoreInRange structural_similarity_analysis
  split
  · norm_num
  · dsimp only
    refine ⟨le_min ?_ (by norm_num), le_trans (min_le_right _ _) (by norm_num)⟩
    exact add_nonneg (add_nonneg (add_nonneg (add_nonneg (add_nonneg (by norm_num)
      (ssa_table_bonus_nonneg _)) (ssa_col_dist_bonus_nonneg _)) (ssa_type_bonus_nonneg _))
      (ssa_rel_bonus_nonneg _ _)) (ssa_pattern_bonus_nonneg _ _)

theorem scs_mem (s : ESchema) (d : String) :
    ScoreInRange (semantic_coherence_scoring s d) := by
  unfold ScoreInRange semantic_coherence_scoring
  simp only []
  refine ⟨le_min ?_ (by norm_num), le_trans (min_le_right _ _) (by norm_num)⟩
  exact add_nonneg (add_nonneg (add_nonneg (add_nonneg (by norm_num)
    (threshold_bonus_nonneg _ _ _ (by norm_num))) (threshold_bonus_nonneg _ _ _ (by norm_num)))
    (threshold_bonus_nonneg _ _ _ (by norm_num)))
    (add_nonneg (scs_key_bonus_nonneg _) (scs_desc_bonus_nonneg _ _))

theorem dwbpc_mem (s : ESchema) : ScoreInRange (dw_best_practices_compliance s) := by
  unfold ScoreInRange dw_best_practices_compliance
  simp only []
  refine ⟨le_min ?_ (by norm_num), le_trans (min_le_right _ _) (by norm_num)⟩
  refine mul_nonneg (div_nonneg ?_ (by norm_num)) (by norm_num)
  simp only [List.sum_cons, List.sum_nil, add_zero]
  exact add_nonneg (check_fact_dim_separation_nonneg s) (add_nonneg
    (check_surrogate_keys_nonneg s) (add_nonneg (check_scd_support_nonneg s)
    (add_nonneg (check_date_dimension_nonneg s) (add_nonneg (check_audit_trails_nonneg s)
    (check_fk_relationships_nonneg s)))))

theorem sqi_mem (s : ESchema) : ScoreInRange (schema_quality_index s) := by
  unfold ScoreInRange schema_quality_index
  simp only []
  refine ⟨le_min ?_ (by norm_num), le_trans (min_le_right _ _) (by norm_num)⟩
  exact add_nonneg (add_nonneg (add_nonneg (add_nonneg (add_nonneg (by norm_num)
    (threshold_bonus_nonneg _ _ _ (by norm_num))) (threshold_bonus_nonneg _ _ _ (by norm_num)))
    (threshold_bonus_nonneg _ _ _ (by norm_num))) (threshold_bonus_nonneg _ _ _ (by norm_num)))
    (add_nonneg (add_nonneg (sqi_pk_bonus_nonneg _) (sqi_type_bonus_nonneg _))
      (sqi_constraint_bonus_nonneg _))

theorem rim_mem (s : ESchema) : ScoreInRange (relationship_integrity_metric s) := by
  unfold ScoreInRange relationship_integrity_metric
  split
  · norm_num
  · dsimp only
    refine ⟨le_min ?_ (by norm_num), le_trans (min_le_right _ _) (by norm_num)⟩
    refine mul_nonneg (div_nonneg ?_ (by norm_num)) (by norm_num)
    simp only [List.sum_cons, List.sum_nil, add_zero]
    exact add_nonneg (check_fk_consistency_nonneg s) (add_nonneg
      (check_referential_integrity_nonneg s) (add_nonneg
      (check_cardinality_appropriateness_nonneg s) (check_circular_references_nonneg s)))

theorem das_mem (s : ESchema) (d : String) : ScoreInRange (domain_alignment_score s d) := by
  unfold ScoreInRange domain_alignment_score
  simp only []
  refine ⟨le_min ?_ (by norm_num), le_trans (min_le_right _ _) (by norm_num)⟩
  refine add_nonneg (add_nonneg (add_nonneg (add_nonneg (add_nonneg (add_nonneg (by norm_num)
    (threshold_bonus_nonneg _ _ _ (by norm_num))) (threshold_bonus_nonneg _ _ _ (by norm_num)))
    (threshold_bonus_nonneg _ _ _ (by norm_num)))
    (le_min (by norm_num) (mul_nonneg (Nat.cast_nonneg _) (by norm_num))))
    (das_warehouse_bonus_nonneg _ _)) (le_min (by norm_num) ?_)
  refine List.sum_nonneg ?_
  intro x hx
  obtain ⟨c, _, rfl⟩ := List.mem_map.mp hx
  exact das_data_type_contrib_nonneg c

/-- The per-slot adjustment keeps each of the six scores inside [0, 100]. -/
theorem adjustScores_mem (st : String) (r : SixScores)
    (h1 : ScoreInRange r.structural) (h2 : ScoreInRange r.semantic)
    (h3 : ScoreInRange r.best_practices) (h4 : ScoreInRange r.quality)
    (h5 : ScoreInRange r.relationships) (h6 : ScoreInRange r.domain_alignment) :
    ScoreInRange (adjustScores st r).structural ∧
    ScoreInRange (adjustScores st r).semantic ∧
    ScoreInRange (adjustScores st r).best_practices ∧
    ScoreInRange (adjustScores st r).quality ∧
    ScoreInRange (adjustScores st r).relationships ∧
    ScoreInRange (adjustScores st r).domain_alignment := by
  obtain ⟨h1a, h1b⟩ := h1
  obtain ⟨h2a, h2b⟩ := h2
  obtain ⟨h3a, h3b⟩ := h3
  obtain ⟨h4a, h4b⟩ := h4
  obtain ⟨h5a, h5b⟩ := h5
  obtain ⟨h6a, h6b⟩ := h6
  unfold adjustScores ScoreInRange
  split_ifs
  · exact ⟨⟨le_min (by linarith) (by norm_num), le_trans (min_le_right _ _) (by norm_num)⟩,
      ⟨le_min (by linarith) (by norm_num), le_trans (min_le_right _ _) (by norm_num)⟩,
      ⟨le_min (by linarith) (by norm_num), le_trans (min_le_right _ _) (by norm_num)⟩,
      ⟨le_min (by linarith) (by norm_num), le_trans (min_le_right _ _) (by norm_num)⟩,
      ⟨le_min (by linarith) (by norm_num), le_trans (min_le_right _ _) (by norm_num)⟩,
      ⟨le_min (by linarith) (by norm_num), le_trans (min_le_right _ _) (by norm_num)⟩⟩
  · exact ⟨⟨le_trans (by norm_num) (le_max_right _ _), max_le (by linarith) (by norm_num)⟩,
      ⟨le_trans (by norm_num) (le_max_right _ _), max_le (by linarith) (by norm_num)⟩,
      ⟨le_trans (by norm_num) (le_max_right _ _), max_le (by linarith) (by norm_num)⟩,
      ⟨le_trans (by norm_num) (le_max_right _ _), max_le (by linarith) (by norm_num)⟩,
      ⟨le_trans (by norm_num) (le_max_right _ _), max_le (by linarith) (by norm_num)⟩,
      ⟨le_trans (by norm_num) (le_max_right _ _), max_le (by linarith) (by norm_num)⟩⟩
  · exact ⟨⟨h1a, h1b⟩, ⟨h2a, h2b⟩, ⟨h3a, h3b⟩, ⟨h4a, h4b⟩, ⟨h5a, h5b⟩, ⟨h6a, h6b⟩⟩

/-- C4: for every schema (and reference schema and domain), each of the six
evaluation algorithms yields a sub-score in [0, 100]; the fixed weights
0.20 / 0.15 / 0.25 / 0.20 / 0.15 / 0.05 sum to 1; and the weighted overall
score — both before rounding and as stored by `_evaluate_single_schema`
(for every candidate slot) — also lies in [0, 100]. -/
theorem score_bounds (t ref : ESchema) (d st : String) :
    ScoreInRange (structural_similarity_analysis t ref) ∧
    ScoreInRange (semantic_coherence_scoring t d) ∧
    ScoreInRange (dw_best_practices_compliance t) ∧
    ScoreInRange (schema_quality_index t) ∧
    ScoreInRange (relationship_integrity_metric t) ∧
    ScoreInRange (domain_alignment_score t d) ∧
    (w_structural + w_semantic + w_best_practices + w_quality + w_relationships +
      w_domain_alignment = 1) ∧
    ScoreInRange (overallOf (adjustScores st (rawScores t ref d))) ∧
    ScoreInRange ((evaluate_single_schema t ref d st).overall_score) := by
  have hssa := ssa_mem t ref
  have hscs := scs_mem t d
  have hbp := dwbpc_mem t
  have hsqi := sqi_mem t
  have hrim := rim_mem t
  have hdas := das_mem t d
  have hadj := adjustScores_mem st (rawScores t ref d) hssa hscs hbp hsqi hrim hdas
  obtain ⟨⟨a1, a2⟩, ⟨b1, b2⟩, ⟨c1, c2⟩, ⟨d1, d2⟩, ⟨e1, e2⟩, ⟨f1, f2⟩⟩ := hadj
  have hov : ScoreInRange (overallOf (adjustScores st (rawScores t ref d))) := by
    unfold ScoreInRange overallOf w_structural w_semantic w_best_practices w_quality
      w_relationships w_domain_alignment
    constructor <;> nlinarith
  refine ⟨hssa, hscs, hbp, hsqi, hrim, hdas, by norm_num [w_structural, w_semantic,
    w_best_practices, w_quality, w_relationships, w_domain_alignment], hov, ?_⟩
  have hstore : (evaluate_single_schema t ref d st).overall_score =
      round2 (overallOf (adjustScores st (rawScores t ref d))) := rfl
  rw [hstore]
  exact ⟨round2_nonneg _ hov.1, round2_le_100 _ hov.2⟩

/-- On the warehouse slot the adjustment block is exactly the six floored
reductions of lines 123-130. -/
theorem adjustScores_warehouse (r : SixScores) :
    adjustScores "warehouse" r =
      { structural := max (r.structural - 1.5) 75.0,
        semantic := max (r.semantic - 2.0) 80.0,
        best_practices := max (r.best_practices - 8.0) 70.0,
        quality := max (r.quality - 2.0) 82.0,
        relationships := max (r.relationships - 3.0) 85.0,
        domain_alignment := max (r.domain_alignment - 3.0) 82.0 } := by
  unfold adjustScores
  split_ifs with hcond1 hcond2
  · exact absurd hcond1 (by decide)
  · rfl
  · exact absurd rfl hcond2

theorem le_round2 (z : ℤ) (c q : ℚ) (hc : (z : ℚ) / 100 = c) (h : c ≤ q) : c ≤ round2 q := by
  rw [← hc]
  exact round2_ge z q (by rw [hc]; exact h)

/-- C10: in the warehouse candidate slot every stored sub-score is bounded
below by its adjustment floor (structural 75, semantic 80, best-practices 70,
quality 82, relationships 85, domain 82), so the warehouse candidate's
overall score — raw and as stored after rounding — is always at least
77.75, for every input schema, reference schema and domain. -/
theorem warehouse_slot_floors (t ref : ESchema) (d : String) :
    75 ≤ (evaluate_single_schema t ref d "warehouse").ssa.score ∧
    80 ≤ (evaluate_single_schema t ref d "warehouse").scs.score ∧
    70 ≤ (evaluate_single_schema t ref d "warehouse").dwbpc.score ∧
    82 ≤ (evaluate_single_schema t ref d "warehouse").sqi.score ∧
    85 ≤ (evaluate_single_schema t ref d "warehouse").rim.score ∧
    82 ≤ (evaluate_single_schema t ref d "warehouse").das.score ∧
    (77.75 : ℚ) ≤ overallOf (adjustScores "warehouse" (rawScores t ref d)) ∧
    (77.75 : ℚ) ≤ (evaluate_single_schema t ref d "warehouse").overall_score := by
  set r := rawScores t ref d with hr
  have hadj := adjustScores_warehouse r
  have hssa : (evaluate_single_schema t ref d "warehouse").ssa.score =
      round2 ((adjustScores "warehouse" r).structural) := rfl
  have hscs : (evaluate_single_schema t ref d "warehouse").scs.score =
      round2 ((adjustScores "warehouse" r).semantic) := rfl
  have hbp : (evaluate_single_schema t ref d "warehouse").dwbpc.score =
      round2 ((adjustScores "warehouse" r).best_practices) := rfl
  have hsqi : (evaluate_single_schema t ref d "warehouse").sqi.score =
      round2 ((adjustScores "warehouse" r).quality) := rfl
  have hrim : (evaluate_single_schema t ref d "warehouse").rim.score =
      round2 ((adjustScores "warehouse" r).relationships) := rfl
  have hdas : (evaluate_single_schema t ref d "warehouse").das.score =
      round2 ((adjustScores "warehouse" r).domain_alignment) := rfl
  have hove : (evaluate_single_schema t ref d "warehouse").overall_score =
      round2 (overallOf (adjustScores "warehouse" r)) := rfl
  have hov : (77.75 : ℚ) ≤ overallOf (adjustScores "warehouse" r) := by
    rw [hadj]
    unfold overallOf w_structural w_semantic w_best_practices w_quality w_relationships
      w_domain_alignment
    have m1 : (75.0 : ℚ) ≤ max (r.structural - 1.5) 75.0 := le_max_right _ _
    have m2 : (80.0 : ℚ) ≤ max (r.semantic - 2.0) 80.0 := le_max_right _ _
    have m3 : (70.0 : ℚ) ≤ max (r.best_practices - 8.0) 70.0 := le_max_right _ _
    have m4 : (82.0 : ℚ) ≤ max (r.quality - 2.0) 82.0 := le_max_right _ _
    have m5 : (85.0 : ℚ) ≤ max (r.relationships - 3.0) 85.0 := le_max_right _ _
    have m6 : (82.0 : ℚ) ≤ max (r.domain_alignment - 3.0) 82.0 := le_max_right _ _
    nlinarith
  refine ⟨?_, ?_, ?_, ?_, ?_, ?_, hov, ?_⟩
  · rw [hssa, hadj]
    exact le_round2 7500 _ _ (by norm_num) (le_trans (by norm_num) (le_max_right _ _))
  · rw [hscs, hadj]
    exact le_round2 8000 _ _ (by norm_num) (le_trans (by norm_num) (le_max_right _ _))
  · rw [hbp, hadj]
    exact le_round2 7000 _ _ (by norm_num) (le_trans (by norm_num) (le_max_right _ _))
  · rw [hsqi, hadj]
    exact le_round2 8200 _ _ (by norm_num) (le_trans (by norm_num) (le_max_right _ _))
  · rw [hrim, hadj]
    exact le_round2 8500 _ _ (by norm_num) (le_trans (by norm_num) (le_max_right _ _))
  · rw [hdas, hadj]
    exact le_round2 8200 _ _ (by norm_num) (le_trans (by norm_num) (le_max_right _ _))
  · rw [hove]
    exact le_round2 7775 _ _ (by norm_num) hov

/-! ### Concrete schemas used by the evaluation-engine theorems -/

/-- Short constructor for an evaluation-schema column. -/
def ec (n ty : String) (cs : List String) : ECol :=
  { name := n, type := ty, constraints := cs }

/-- A degenerate schema: one table with zero columns. -/
def zeroColSchema : ESchema :=
  [{ name := "t", columns := [] }]

/-- Warehouse-slot candidate of the tie pair: its warehouse-adjusted overall
score is exactly 81.15. -/
def tieW : ESchema :=
  [{ name := "dim_date", columns :=
      [ec "date_key" "BIGINT" ["PRIMARY KEY"],
       ec "year" "INTEGER" [],
       ec "month" "INTEGER" [],
       ec "quarter" "INTEGER" []] },
   { name := "x", columns := [ec "c" "X" [], ec "c" "X" []] }]

/-- AI-slot candidate of the tie pair: its ai_enhanced-adjusted overall score
is also exactly 81.15. -/
def tieA : ESchema :=
  [{ name := "dim_date", columns :=
      [ec "date_key" "BIGINT" ["PRIMARY KEY"],
       ec "year" "INTEGER" [],
       ec "month" "INTEGER" [],
       ec "quarter" "INTEGER" []] },
   { name := "x", columns := [ec "c" "X" [], ec "c" "X" [], ec "c" "X" []] }]

/-- Cyclic pair with upper-case table names: A references B and B references
A, and the upper-cased reference targets match the table names, so the
source's cycle detector sees the cycle. -/
def cyclicUpper : ESchema :=
  [{ name := "A", columns :=
      [ec "a_id" "INT" ["PRIMARY KEY"], ec "b_id" "INT" ["REFERENCES B(b_id)"]] },
   { name := "B", columns :=
      [ec "b_id" "INT" ["PRIMARY KEY"], ec "a_id" "INT" ["REFERENCES A(a_id)"]] }]

/-- The same two tables with B's reference retargeted to the external table C:
the foreign-key graph is acyclic, everything else is unchanged. -/
def acyclicUpper : ESchema :=
  [{ name := "A", columns :=
      [ec "a_id" "INT" ["PRIMARY KEY"], ec "b_id" "INT" ["REFERENCES B(b_id)"]] },
   { name := "B", columns :=
      [ec "b_id" "INT" ["PRIMARY KEY"], ec "a_id" "INT" ["REFERENCES C(a_id)"]] }]

/-- The cyclic pair again but with lower-case table names: a references b and
b references a, a genuine foreign-key cycle. -/
def cyclicLower : ESchema :=
  [{ name := "a", columns :=
      [ec "a_id" "INT" ["PRIMARY KEY"], ec "b_id" "INT" ["REFERENCES b(b_id)"]] },
   { name := "b", columns :=
      [ec "b_id" "INT" ["PRIMARY KEY"], ec "a_id" "INT" ["REFERENCES a(a_id)"]] }]

/-- The lower-case pair with b's reference retargeted to c: acyclic. -/
def acyclicLower : ESchema :=
  [{ name := "a", columns :=
      [ec "a_id" "INT" ["PRIMARY KEY"], ec "b_id" "INT" ["REFERENCES b(b_id)"]] },
   { name := "b", columns :=
      [ec "b_id" "INT" ["PRIMARY KEY"], ec "a_id" "INT" ["REFERENCES c(a_id)"]] }]

/-! ### Claim theorems about the evaluation engine -/

set_option maxRecDepth 4000

/-- C2 counterexample: at the concrete candidate pair tieW / tieA the two
stored overall scores are exactly equal (both 81.15), yet the
best-candidate decision does NOT name the first-listed (warehouse)
candidate — the source's else-branch picks ai_enhanced on ties. -/
theorem tie_first_listed_counterexample :
    (evaluate_schemas "2024-01-01T00:00:00" [] tieW tieA
        "general").warehouse_schema_evaluation.overall_score =
      (evaluate_schemas "2024-01-01T00:00:00" [] tieW tieA
        "general").ai_enhanced_schema_evaluation.overall_score ∧
    (evaluate_schemas "2024-01-01T00:00:00" [] tieW tieA
        "general").best_schema_recommendation.schema_type ≠ "warehouse" := by
  constructor
  · with_unfolding_all decide
  · with_unfolding_all decide

/-- C2 (amended): when the two candidates' stored overall scores are exactly
equal, the best-candidate selection names the SECOND-listed (ai_enhanced)
candidate — `warehouse_score > ai_enhanced_score` fails on a tie and the
else-branch runs — and no tie annotation is produced (the reason is the
fixed ai_enhanced string). -/
theorem tie_selects_ai_enhanced (now : String) (o w a : ESchema) (d : String)
    (h : (evaluate_schemas now o w a d).warehouse_schema_evaluation.overall_score =
      (evaluate_schemas now o w a d).ai_enhanced_schema_evaluation.overall_score) :
    (evaluate_schemas now o w a d).best_schema_recommendation =
      { schema_type := "ai_enhanced",
        score := (evaluate_schemas now o w a d).ai_enhanced_schema_evaluation.overall_score,
        reason := "Superior comprehensive design with advanced features" } := by
  have hproj : (evaluate_schemas now o w a d).best_schema_recommendation =
      (if (evaluate_single_schema a o d "ai_enhanced").overall_score <
          (evaluate_single_schema w o d "warehouse").overall_score then
        ({ schema_type := "warehouse",
           score := (evaluate_single_schema w o d "warehouse").overall_score,
           reason := "Higher overall quality score with better structural alignment" } : BestRec)
      else
        { schema_type := "ai_enhanced",
          score := (evaluate_single_schema a o d "ai_enhanced").overall_score,
          reason := "Superior comprehensive design with advanced features" }) := rfl
  have hh : (evaluate_single_schema w o d "warehouse").overall_score =
      (evaluate_single_schema a o d "ai_enhanced").overall_score := h
  rw [hproj, if_neg (by rw [hh]; exact lt_irrefl _)]
  rfl

/-- Witness for C2 at the concrete tie pair: the hypothesis (equal overall
scores) holds at tieW / tieA and the selection names ai_enhanced. -/
theorem tie_selects_ai_enhanced_witness :
    (evaluate_schemas "2024-01-01T00:00:00" [] tieW tieA
        "general").warehouse_schema_evaluation.overall_score =
      (evaluate_schemas "2024-01-01T00:00:00" [] tieW tieA
        "general").ai_enhanced_schema_evaluation.overall_score ∧
    (evaluate_schemas "2024-01-01T00:00:00" [] tieW tieA
        "general").best_schema_recommendation =
      { schema_type := "ai_enhanced",
        score := (evaluate_schemas "2024-01-01T00:00:00" [] tieW tieA
          "general").ai_enhanced_schema_evaluation.overall_score,
        reason := "Superior comprehensive design with advanced features" } :=
  ⟨by with_unfolding_all decide,
   tie_selects_ai_enhanced "2024-01-01T00:00:00" [] tieW tieA "general"
     (by with_unfolding_all decide)⟩

/-- C3 counterexample: the same (empty) schema submitted under the warehouse
slot and under the ai_enhanced slot receives different structural sub-scores
(83.5 vs 87.0) — the slot label changes the reported scores. -/
theorem identical_scoring_counterexample :
    (evaluate_single_schema [] [] "general" "warehouse").ssa.score ≠
      (evaluate_single_schema [] [] "general" "ai_enhanced").ssa.score := by
  with_unfolding_all decide

/-- C3 (amended): every candidate is scored independently — a candidate's
evaluation record depends only on its own schema, the reference schema and
the domain, never on the other candidate or the clock — and both slots
consume one shared set of raw algorithm scores; but the slots are NOT scored
identically: the stored scores are the slot-specific adjustment
(warehouse: floored reductions, ai_enhanced: capped boosts) of those shared
raw scores. -/
theorem candidate_scoring_independence (now now' : String) (o w a a' w' : ESchema)
    (d : String) :
    ((evaluate_schemas now o w a d).warehouse_schema_evaluation =
      (evaluate_schemas now' o w a' d).warehouse_schema_evaluation) ∧
    ((evaluate_schemas now o w a d).ai_enhanced_schema_evaluation =
      (evaluate_schemas now' o w' a d).ai_enhanced_schema_evaluation) ∧
    (∀ t ref dom, (evaluate_single_schema t ref dom "warehouse").ssa.score =
        round2 (max ((rawScores t ref dom).structural - 1.5) 75.0) ∧
      (evaluate_single_schema t ref dom "ai_enhanced").ssa.score =
        round2 (min ((rawScores t ref dom).structural + 2.0) 100.0)) :=
  ⟨rfl, rfl, fun _ _ _ => ⟨rfl, rfl⟩⟩

/-- C5 counterexample: the lower-case cyclic pair (a references b, b
references a — a genuine foreign-key cycle) scores exactly the same RIM as
its otherwise-identical acyclic variant (93.75 both), because the detector
compares upper-cased reference targets against original-case table keys and
never sees the cycle. -/
theorem rim_cycle_counterexample :
    relationship_integrity_metric cyclicLower = relationship_integrity_metric acyclicLower ∧
    ¬ hasCircularReference cyclicLower := by
  constructor
  · with_unfolding_all decide
  · with_unfolding_all decide

/-- C5 (amended): when the upper-cased reference targets match the table
names (here tables A and B), the cyclic schema scores strictly lower RIM
than the otherwise-identical acyclic schema (88.75 < 93.75), the cycle
penalty being the circular-reference check's 0.8 against 1.0. -/
theorem rim_cycle_strictly_lower :
    relationship_integrity_metric cyclicUpper < relationship_integrity_metric acyclicUpper ∧
    hasCircularReference cyclicUpper ∧ ¬ hasCircularReference acyclicUpper := by
  refine ⟨?_, ?_, ?_⟩
  · with_unfolding_all decide
  · with_unfolding_all decide
  · with_unfolding_all decide

/-- C7: on the empty schema and on a zero-column schema, all six scoring
functions return defined values (every average in them is guarded by an
emptiness test, as in the source): for the empty schema
SSA 85, SCS 82, DWBPC 115/3, SQI 87.2, RIM 0, DAS 80; for the one-table
zero-column schema SSA 86, SCS 82, DWBPC 115/3, SQI 87.05, RIM 90, DAS 80 —
for a known (E-commerce) and an unknown domain alike. -/
theorem degenerate_schema_scores_defined :
    (structural_similarity_analysis [] [] = 85 ∧
     semantic_coherence_scoring [] "E-commerce" = 82 ∧
     semantic_coherence_scoring [] "Unknown-Domain" = 82 ∧
     dw_best_practices_compliance [] = 115/3 ∧
     schema_quality_index [] = 436/5 ∧
     relationship_integrity_metric [] = 0 ∧
     domain_alignment_score [] "E-commerce" = 80 ∧
     domain_alignment_score [] "Unknown-Domain" = 80) ∧
    (structural_similarity_analysis zeroColSchema zeroColSchema = 86 ∧
     semantic_coherence_scoring zeroColSchema "E-commerce" = 82 ∧
     semantic_coherence_scoring zeroColSchema "Unknown-Domain" = 82 ∧
     dw_best_practices_compliance zeroColSchema = 115/3 ∧
     schema_quality_index zeroColSchema = 1741/20 ∧
     relationship_integrity_metric zeroColSchema = 90 ∧
     domain_alignment_score zeroColSchema "E-commerce" = 80 ∧
     domain_alignment_score zeroColSchema "Unknown-Domain" = 80) := by
  constructor
  · refine ⟨?_, ?_, ?_, ?_, ?_, ?_, ?_, ?_⟩ <;> with_unfolding_all decide
  · refine ⟨?_, ?_, ?_, ?_, ?_, ?_, ?_, ?_⟩ <;> with_unfolding_all decide

/-- C9 counterexample: two invocations of `evaluate_schemas` with identical
schema and domain arguments but different ambient clock readings produce
different results — the result embeds `datetime.now().isoformat()`. -/
theorem determinism_counterexample :
    evaluate_schemas "2024-01-01T00:00:00" [] [] [] "general" ≠
      evaluate_schemas "2024-01-02T00:00:00" [] [] [] "general" := by
  intro h
  exact absurd (congrArg EvalResults.evaluation_timestamp h) (by decide)

/-- C9 (amended): `evaluate_schemas` is deterministic in everything except
the `evaluation_timestamp` field — all other fields of the result depend
only on the schemas and the domain. -/
theorem determinism_modulo_timestamp (ts1 ts2 : String) (o w a : ESchema) (d : String) :
    (evaluate_schemas ts1 o w a d).domain = (evaluate_schemas ts2 o w a d).domain ∧
    (evaluate_schemas ts1 o w a d).algorithm_details =
      (evaluate_schemas ts2 o w a d).algorithm_details ∧
    (evaluate_schemas ts1 o w a d).warehouse_schema_evaluation =
      (evaluate_schemas ts2 o w a d).warehouse_schema_evaluation ∧
    (evaluate_schemas ts1 o w a d).ai_enhanced_schema_evaluation =
      (evaluate_schemas ts2 o w a d).ai_enhanced_schema_evaluation ∧
    (evaluate_schemas ts1 o w a d).comparative_analysis =
      (evaluate_schemas ts2 o w a d).comparative_analysis ∧
    (evaluate_schemas ts1 o w a d).recommendations =
      (evaluate_schemas ts2 o w a d).recommendations ∧
    (evaluate_schemas ts1 o w a d).best_schema_recommendation =
      (evaluate_schemas ts2 o w a d).best_schema_recommendation :=
  ⟨rfl, rfl, rfl, rfl, rfl, rfl, rfl⟩

end WSG
